import Mathlib

/-!
Shallow embedding of the data-aggregation core of the CTG_TM_dashboard
repository (`src/backend/app/services/data_processing.py`, plus the legacy
Dash implementation `src/python/ProjectDashBoard/data_processing.py`).

Modelling conventions, fixed once for the whole development:

* A pandas cell is a `Value`: an int64 (`vint`), a string (`vstr`), a
  datetime64 timestamp (`vts`, measured in integer seconds since the epoch;
  the CSV dates of this system are whole days, sub-second precision is never
  observable through the embedded operations), a float64 that is an exact
  multiple of 0.01 (`vpct p` denotes the float p/100; the only floats the
  code produces are `round(x, 2)` results and the literal 0), float64
  positive infinity (`vinf`), and NaN/NaT (`vnan`).
* A DataFrame is its ordered column list plus a list of rows; a row is an
  association list from column names to values.  Reading a column that is
  absent from `cols` models pandas raising `KeyError`, hence functions whose
  Python source can raise return `Except String _`; a `.error` value models
  an exception escaping the function.  Functions whose entire Python body is
  wrapped in `try/except` are total and return the caught-and-converted
  result directly.
* The calendar date of a timestamp (`.dt.date` / `.date()`) is its floor
  day `t / 86400` (Euclidean division by a positive divisor is the floor).
  `Timedelta.days` is likewise the floor of the difference in days.
* Python `round(x, 2)` (IEEE round-half-to-even; the halves that occur here
  are dyadic, hence exact) is `rheDiv (100 * numerator-scale) denominator`,
  integer round-half-to-even division.
* Date parsing (`pd.to_datetime(col, errors="coerce")`) is abstracted: a
  string cell that parses to a date is represented as its parsed `vts`
  value already in the raw table, every other cell coerces to `vnan`,
  except int64 cells which pandas interprets as nanoseconds since the epoch.
* `sort_values` is modelled as a stable insertion sort with NaT ordered
  last; pandas does not guarantee the relative order of ties (quicksort),
  so no claim below depends on tie order.
* The date columns are assumed datetime-typed (the loader's
  `to_datetime(errors="coerce")` postcondition: every cell is a timestamp
  or NaT); a hand-built object-dtype column would make the `.dt` accessor
  raise, a case outside the embedded column model.
* Paths are opaque strings; `Path(...).resolve()` is the identity on
  them.
-/

namespace CTG

/-- A pandas cell value (int64, string, datetime64 in epoch seconds, a
two-decimal float written as an integer count of hundredths, float
infinity, or NaN/NaT). -/
inductive Value where
  | vint (n : ℤ)
  | vstr (s : String)
  | vts (t : ℤ)
  | vpct (p : ℤ)
  | vinf
  | vnan
deriving DecidableEq, Repr

/-- A DataFrame row: association list from column names to cell values. -/
abbrev Row := List (String × Value)

/-- Read a cell of a row; a key absent from the row is NaN (rows are kept
in sync with the frame's column list, so this only happens for columns the
merge left unmatched, which pandas fills with NaN). -/
def getv (r : Row) (c : String) : Value :=
  (r.lookup c).getD Value.vnan

/-- A pandas DataFrame: ordered column names and rows. -/
structure DataFrame where
  cols : List String
  rows : List Row
deriving DecidableEq, Repr

/-- Column membership (`c in df.columns`). -/
def hasCol (df : DataFrame) (c : String) : Bool :=
  df.cols.contains c

/-- Python `str(x)` for the cell values that ever reach `astype(str)` in
this code (project ids are ints or strings; NaN renders as "nan"). -/
def pyStr (v : Value) : String :=
  match v with
  | .vint n => toString n
  | .vstr s => s
  | .vts t => "Timestamp(" ++ toString t ++ ")"
  | .vpct p => "float(" ++ toString p ++ "/100)"
  | .vinf => "inf"
  | .vnan => "nan"

/-- The calendar day of an epoch-seconds timestamp (floor division;
`/` on ℤ is Euclidean division, which is the floor for the positive
divisor 86400). -/
def dayOf (t : ℤ) : ℤ :=
  t / 86400

/-- Element-wise `series.dt.date < today` (NaT compares false). -/
def dtDateLtB (v : Value) (today : ℤ) : Bool :=
  match v with
  | .vts t => decide (dayOf t < today)
  | _ => false

/-- Element-wise `series.dt.date <= today` (NaT compares false). -/
def dtDateLeB (v : Value) (today : ℤ) : Bool :=
  match v with
  | .vts t => decide (dayOf t ≤ today)
  | _ => false

/-- Element-wise `series.dt.date >= today` (NaT compares false). -/
def dtDateGeB (v : Value) (today : ℤ) : Bool :=
  match v with
  | .vts t => decide (today ≤ dayOf t)
  | _ => false

/-- Element-wise `series.dt.date > today` (NaT compares false). -/
def dtDateGtB (v : Value) (today : ℤ) : Bool :=
  match v with
  | .vts t => decide (today < dayOf t)
  | _ => false

/-- Element-wise full-timestamp `series > now` (NaT compares false). -/
def tsGtB (v : Value) (now : ℤ) : Bool :=
  match v with
  | .vts t => decide (now < t)
  | _ => false

/-- Element-wise full-timestamp `series < now` (NaT compares false). -/
def tsLtB (v : Value) (now : ℤ) : Bool :=
  match v with
  | .vts t => decide (t < now)
  | _ => false

/-- Element-wise `series != "s"`: a non-string cell (including NaN) is
unequal to a string literal in pandas. -/
def neStrB (v : Value) (s : String) : Bool :=
  match v with
  | .vstr s2 => decide (s2 ≠ s)
  | _ => true

/-- Element-wise `series == "s"` (NaN and non-strings compare false). -/
def eqStrB (v : Value) (s : String) : Bool :=
  match v with
  | .vstr s2 => decide (s2 = s)
  | _ => false

/-- Element-wise `series.str.contains(m, na=False)`: substring test on
string cells, false on everything else. -/
def strContainsB (v : Value) (m : String) : Bool :=
  match v with
  | .vstr s => decide (1 < (s.splitOn m).length)
  | _ => false

/-- Integer round-half-to-even division: Python `round(a / b)` for `b > 0`
(the kernel of `round(x, 2)` after scaling by 100). -/
def rheDiv (a b : ℤ) : ℤ :=
  if 2 * (a % b) < b then a / b
  else if b < 2 * (a % b) then a / b + 1
  else if (a / b) % 2 = 0 then a / b else a / b + 1

/-- Insert a row into a sorted list (kernel of the stable sort). -/
def insertLe (le : Row → Row → Bool) (a : Row) : List Row → List Row
  | [] => [a]
  | b :: bs => if le a b then a :: b :: bs else b :: insertLe le a bs

/-- Stable insertion sort used to model `sort_values` (pandas makes no
stability promise; no claim depends on tie order). -/
def sortRows (le : Row → Row → Bool) : List Row → List Row
  | [] => []
  | a :: as => insertLe le a (sortRows le as)

/-- Sort key comparison for `sort_values(column)`: timestamps ascending,
NaT (and any non-timestamp) last. -/
def keyLeB (u v : Value) : Bool :=
  match u, v with
  | .vts s, .vts t => decide (s ≤ t)
  | .vts _, _ => true
  | _, .vts _ => false
  | _, _ => true

/-- Row comparison for `sort_values("task_finish_date")`. -/
def finishLe (a b : Row) : Bool :=
  keyLeB (getv a "task_finish_date") (getv b "task_finish_date")

/-- Row comparison for `sort_values("task_start_date")`. -/
def startLe (a b : Row) : Bool :=
  keyLeB (getv a "task_start_date") (getv b "task_start_date")

/-- Deduplication keeping first occurrences, as `Series.unique` and the
iteration order of `groupby` keys (group-key ordering is irrelevant to
every claim below, so the sorted reordering pandas applies when the keys
are orderable is not modelled). -/
def dedupFirstAux (seen : List Value) : List Value → List Value
  | [] => []
  | v :: rest =>
    if v ∈ seen then dedupFirstAux seen rest
    else v :: dedupFirstAux (v :: seen) rest

/-- First-occurrence deduplication of a value list. -/
def dedupFirst (l : List Value) : List Value :=
  dedupFirstAux [] l

/-- Backend `check_delays(df)` (services/data_processing.py lines 302-334):
no try/except, so a missing `task_finish_date` or `task_status` column is a
`KeyError` escaping the function; otherwise filters rows whose finish date
(date part only) is strictly before today and whose status is not the
completion sentinel. `today` is `datetime.now()` stripped to midnight,
i.e. the current calendar day number. -/
def check_delays (df : DataFrame) (today : ℤ) : Except String DataFrame :=
  if hasCol df "task_finish_date" = false then
    Except.error "KeyError: task_finish_date"
  else if hasCol df "task_status" = false then
    Except.error "KeyError: task_status"
  else
    Except.ok ⟨df.cols, df.rows.filter (fun r =>
      dtDateLtB (getv r "task_finish_date") today &&
      neStrB (getv r "task_status") "完了")⟩

/-- Backend `get_delayed_projects_count(df)` (lines 337-350): counts the
distinct `project_id` values among the delayed tasks (`Series.unique`,
which keeps NaN as a value); propagates `check_delays` exceptions and
raises `KeyError` itself when `project_id` is absent. -/
def get_delayed_projects_count (df : DataFrame) (today : ℤ) :
    Except String ℕ :=
  match check_delays df today with
  | .error e => .error e
  | .ok delayed =>
    if hasCol delayed "project_id" = false then
      .error "KeyError: project_id"
    else
      .ok (dedupFirst (delayed.rows.map (fun r => getv r "project_id"))).length

namespace ProjectDashBoard

/-- Legacy Dash `check_delays(df)` (python/ProjectDashBoard/
data_processing.py lines 147-161): compares the FULL timestamp
`task_finish_date < datetime.now()` (no stripping of the time of day),
status not the sentinel; no try/except. -/
def check_delays (df : DataFrame) (now : ℤ) : Except String DataFrame :=
  if hasCol df "task_finish_date" = false then
    Except.error "KeyError: task_finish_date"
  else if hasCol df "task_status" = false then
    Except.error "KeyError: task_status"
  else
    Except.ok ⟨df.cols, df.rows.filter (fun r =>
      tsLtB (getv r "task_finish_date") now &&
      neStrB (getv r "task_status") "完了")⟩

end ProjectDashBoard

/-- The rows flagged as milestones (`df['task_milestone'] == '○'`). -/
def milestoneRows (df : DataFrame) : List Row :=
  df.rows.filter (fun r => eqStrB (getv r "task_milestone") "○")

/-- The milestone rows whose full `task_finish_date` timestamp is strictly
after `now` (backend line 587 compares full timestamps, not dates). -/
def futureMilestoneRows (df : DataFrame) (now : ℤ) : List Row :=
  df.rows.filter (fun r =>
    eqStrB (getv r "task_milestone") "○" &&
    tsGtB (getv r "task_finish_date") now)

/-- Backend `get_next_milestone(df, include_past=True)` branch: all
milestone-flagged rows sorted ascending by finish date. The milestone
column is read first (line 583, `KeyError` when absent), and
`sort_values("task_finish_date")` needs the finish column (line 594). -/
def get_next_milestone_all (df : DataFrame) : Except String DataFrame :=
  if hasCol df "task_milestone" = false then
    Except.error "KeyError: task_milestone"
  else if hasCol df "task_finish_date" = false then
    Except.error "KeyError: task_finish_date"
  else
    Except.ok ⟨df.cols, sortRows finishLe (milestoneRows df)⟩

/-- Backend `get_next_milestone(df, include_past)` (lines 548-599): with
`include_past=False` filters milestone rows with future finish timestamps,
sorted ascending; when that result is empty it RECURSES with
`include_past=True` (line 597) and returns all milestones instead. -/
def get_next_milestone (df : DataFrame) (now : ℤ) (includePast : Bool) :
    Except String DataFrame :=
  if includePast then get_next_milestone_all df
  else if hasCol df "task_milestone" = false then
    Except.error "KeyError: task_milestone"
  else if hasCol df "task_finish_date" = false then
    Except.error "KeyError: task_finish_date"
  else if (futureMilestoneRows df now).isEmpty then
    get_next_milestone_all df
  else
    Except.ok ⟨df.cols, sortRows finishLe (futureMilestoneRows df now)⟩

/-- The six columns `calculate_progress` requires (backend lines 402-403). -/
def requiredColumns : List String :=
  ["project_id", "project_name", "task_id", "task_status",
   "task_start_date", "task_finish_date"]

/-- Column order of the degenerate one-row rollup frames built from a dict
literal (backend lines 385-399, 407-421, 504-518). -/
def errRollupCols : List String :=
  ["project_id", "project_name", "process", "line", "total_tasks",
   "completed_tasks", "milestone_count", "start_date", "end_date",
   "project_path", "ganttchart_path", "progress", "duration"]

/-- The one-row degenerate rollup (`project_name` carries the diagnostic
label; dates are `datetime.now()`; the numeric cells are int literals). -/
def errRollupRow (label : String) (now : ℤ) : Row :=
  [("project_id", .vint 0), ("project_name", .vstr label),
   ("process", .vstr "N/A"), ("line", .vstr "N/A"),
   ("total_tasks", .vint 0), ("completed_tasks", .vint 0),
   ("milestone_count", .vint 0), ("start_date", .vts now),
   ("end_date", .vts now), ("project_path", .vstr ""),
   ("ganttchart_path", .vstr ""), ("progress", .vint 0),
   ("duration", .vint 0)]

/-- Group keys of `df.groupby("project_id")`: the distinct non-NaN
`project_id` cell values (pandas drops NaN group keys). -/
def groupKeys (df : DataFrame) : List Value :=
  dedupFirst (df.rows.filterMap (fun r =>
    match getv r "project_id" with
    | .vnan => none
    | v => some v))

/-- The rows of the group keyed `k` (raw cell-value equality: pandas
groups an int64 1 and a string "1" separately). -/
def groupRows (df : DataFrame) (k : Value) : List Row :=
  df.rows.filter (fun r => decide (getv r "project_id" = k))

/-- `GroupBy.first` aggregation: the first non-NaN value of the column in
the group, NaN when there is none. -/
def firstAgg (g : List Row) (c : String) : Value :=
  ((g.map (fun r => getv r c)).find? (fun v => decide (v ≠ .vnan))).getD .vnan

/-- `agg({"task_id": "count"})`: the number of non-NaN `task_id` cells in
the group (pandas `count` excludes NaN). -/
def taskCount (g : List Row) : ℕ :=
  (g.filter (fun r => decide (getv r "task_id" ≠ .vnan))).length

/-- Completed-task count of a group: `(task_status == "完了").sum()`
over ALL rows of the group (backend lines 435-437). -/
def completedCount (g : List Row) : ℕ :=
  (g.filter (fun r => eqStrB (getv r "task_status") "完了")).length

/-- Milestone count of a group:
`task_milestone.str.contains("○", na=False).sum()` when the column
exists, otherwise the constant-0 series (backend lines 427-432). -/
def milestoneCountAgg (df : DataFrame) (g : List Row) : ℕ :=
  if hasCol df "task_milestone" then
    (g.filter (fun r => strContainsB (getv r "task_milestone") "○")).length
  else 0

/-- Minimum of the timestamp cells of a column in a group, skipping
NaN/NaT (`GroupBy.min`); NaT when no timestamp is present. -/
def minDateAgg (g : List Row) (c : String) : Value :=
  match (g.filterMap (fun r =>
      match getv r c with | .vts t => some t | _ => none)).min? with
  | some t => .vts t
  | none => .vnan

/-- Maximum of the timestamp cells of a column in a group, skipping
NaN/NaT (`GroupBy.max`); NaT when no timestamp is present. -/
def maxDateAgg (g : List Row) (c : String) : Value :=
  match (g.filterMap (fun r =>
      match getv r c with | .vts t => some t | _ => none)).max? with
  | some t => .vts t
  | none => .vnan

/-- `(completed_tasks / total_tasks * 100).round(2)` followed by
`fillna(0)` (backend lines 470-474), in exact arithmetic: a float64
division by the int 0 yields NaN for 0/0 (then filled to 0.0) and +inf
for positive/0 (NOT filled — `fillna` only replaces NaN). -/
def progressValue (c t : ℕ) : Value :=
  if t = 0 then (if c = 0 then .vpct 0 else .vinf)
  else .vpct (rheDiv (10000 * (c : ℤ)) (t : ℤ))

/-- `(end_date - start_date).dt.days` with `fillna(0).astype(int)`
(backend lines 477-483): floor of the span in days when both bounds are
timestamps, 0 when either is NaT. -/
def durationValue (s e : Value) : Value :=
  match s, e with
  | .vts s, .vts e => .vint ((e - s) / 86400)
  | _, _ => .vint 0

/-- The optional pass-through columns the aggregation keeps when present
(backend lines 446-453, insertion order of the agg dict). -/
def optionalCols (df : DataFrame) : List String :=
  (["process", "line", "project_path", "ganttchart_path"].filter
    (fun c => hasCol df c))

/-- The columns assigned after the aggregation (backend lines 458-483),
for group `k`. -/
def rollupTail (df : DataFrame) (k : Value) : Row :=
  [("milestone_count", Value.vint (milestoneCountAgg df (groupRows df k) : ℤ)),
   ("completed_tasks", Value.vint (completedCount (groupRows df k) : ℤ)),
   ("total_tasks", Value.vint (taskCount (groupRows df k) : ℤ)),
   ("start_date", minDateAgg (groupRows df k) "task_start_date"),
   ("end_date", maxDateAgg (groupRows df k) "task_finish_date"),
   ("progress", progressValue (completedCount (groupRows df k))
                              (taskCount (groupRows df k))),
   ("duration", durationValue (minDateAgg (groupRows df k) "task_start_date")
                              (maxDateAgg (groupRows df k) "task_finish_date"))]

/-- One output row of the normal rollup branch for group key `k`:
`reset_index` column, agg-dict columns (with the optional pass-through
columns), then the assigned columns. -/
def rollupRow (df : DataFrame) (k : Value) : Row :=
  [("project_id", k),
   ("project_name", firstAgg (groupRows df k) "project_name"),
   ("task_id", Value.vint (taskCount (groupRows df k) : ℤ))]
  ++ (optionalCols df).map (fun c => (c, firstAgg (groupRows df k) c))
  ++ rollupTail df k

/-- Column order of the normal rollup output: `reset_index` puts
`project_id` first, then the agg-dict columns, then the assigned columns
in assignment order (the `task_id` count column is kept alongside its
`total_tasks` copy). -/
def rollupCols (df : DataFrame) : List String :=
  ["project_id", "project_name", "task_id"] ++ optionalCols df ++
  ["milestone_count", "completed_tasks", "total_tasks",
   "start_date", "end_date", "progress", "duration"]

/-- Backend `calculate_progress(df)` (lines 353-518).  The whole body is
wrapped in try/except, and no branch of this model raises, so the result
is a plain DataFrame: empty frame -> empty rollup with the full schema;
an `error` column -> one-row "エラー" rollup; a missing required column ->
one-row "データエラー" rollup; otherwise the per-project aggregation.
`now` is `datetime.now()` (used only by the degenerate branches). -/
def calculate_progress (df : DataFrame) (now : ℤ) : DataFrame :=
  if df.rows.isEmpty then ⟨errRollupCols, []⟩
  else if hasCol df "error" then ⟨errRollupCols, [errRollupRow "エラー" now]⟩
  else if requiredColumns.any (fun c => hasCol df c = false) then
    ⟨errRollupCols, [errRollupRow "データエラー" now]⟩
  else ⟨rollupCols df, (groupKeys df).map (rollupRow df)⟩

/-- One populated slot of the recent-task snapshot: a task name cell and
an integer day offset. -/
structure TaskSnap where
  name : Value
  days : ℤ
deriving DecidableEq, Repr

/-- The return shape of `get_recent_tasks`: exactly four slots, each
either None or a populated `{name, days}` object. -/
structure RecentTasks where
  delayed : Option TaskSnap
  in_progress : Option TaskSnap
  next_task : Option TaskSnap
  next_next_task : Option TaskSnap
deriving DecidableEq, Repr

/-- The all-None snapshot returned for an unknown project and by the
exception handler. -/
def allNullRecent : RecentTasks :=
  ⟨none, none, none, none⟩

/-- The per-project row filter shared by `get_recent_tasks` (line 679),
`next_milestone_format` (line 624) and `get_project_milestones`
(line 791): `df["project_id"].astype(str) == str(project_id)`. -/
def astypeStrMatch (r : Row) (pid : String) : Bool :=
  pyStr (getv r "project_id") == pid

/-- Column selection `df[df["project_id"].astype(str) == pid]`: raises
`KeyError` when `project_id` is absent, otherwise filters. -/
def projectFilter (df : DataFrame) (pid : String) :
    Except String (List Row) :=
  if hasCol df "project_id" = false then .error "KeyError: project_id"
  else .ok (df.rows.filter (fun r => astypeStrMatch r pid))

/-- Day number of a timestamp cell (`cell.date()`); a non-timestamp cell
has no `.date()` attribute, modelling the `AttributeError` that the
enclosing try/except would catch (unreachable through the masks, which
only select timestamp cells). -/
def cellDay (v : Value) : Except String ℤ :=
  match v with
  | .vts t => .ok (dayOf t)
  | _ => .error "AttributeError: date"

/-- Body of backend `get_recent_tasks` (lines 671-745), the part guarded
by try/except; `.error` models an exception reaching the handler.  The
three boolean masks (lines 691-704) compare calendar dates; the empty
project check (line 681) precedes every other column access, so a frame
that merely lacks the date or status columns still returns the all-None
dict when the project has no rows. -/
def recentBody (df : DataFrame) (pid : String) (now : ℤ) :
    Except String RecentTasks := do
  let pt ← projectFilter df pid
  if pt.isEmpty then return allNullRecent
  if hasCol df "task_finish_date" = false then
    throw "KeyError: task_finish_date"
  if hasCol df "task_status" = false then
    throw "KeyError: task_status"
  if hasCol df "task_start_date" = false then
    throw "KeyError: task_start_date"
  let today := dayOf now
  let delayedTasks := sortRows finishLe (pt.filter (fun r =>
    dtDateLtB (getv r "task_finish_date") today &&
    neStrB (getv r "task_status") "完了"))
  let inProgressTasks := sortRows finishLe (pt.filter (fun r =>
    neStrB (getv r "task_status") "完了" &&
    dtDateLeB (getv r "task_start_date") today &&
    dtDateGeB (getv r "task_finish_date") today))
  let nextTasks := sortRows startLe (pt.filter (fun r =>
    neStrB (getv r "task_status") "完了" &&
    dtDateGtB (getv r "task_start_date") today))
  let delayedSlot ←
    match delayedTasks with
    | [] => pure (none : Option TaskSnap)
    | r :: _ => do
      let d ← cellDay (getv r "task_finish_date")
      pure (some ⟨getv r "task_name", today - d⟩)
  let inProgressSlot ←
    match inProgressTasks with
    | [] => pure (none : Option TaskSnap)
    | r :: _ => do
      let d ← cellDay (getv r "task_finish_date")
      pure (some ⟨getv r "task_name", d - today⟩)
  let nextSlot ←
    match nextTasks with
    | [] => pure (none : Option TaskSnap)
    | r :: _ => do
      let d ← cellDay (getv r "task_start_date")
      pure (some ⟨getv r "task_name", d - today⟩)
  let nextNextSlot ←
    match nextTasks with
    | _ :: r2 :: _ => do
      let d ← cellDay (getv r2 "task_start_date")
      pure (some ⟨getv r2 "task_name", d - today⟩)
    | _ => pure (none : Option TaskSnap)
  return ⟨delayedSlot, inProgressSlot, nextSlot, nextNextSlot⟩

/-- Backend `get_recent_tasks(df, project_id)` (lines 654-754): the
try/except converts every internal exception into the all-None dict, so
the function is total and always returns the four-slot shape. -/
def get_recent_tasks (df : DataFrame) (pid : String) (now : ℤ) :
    RecentTasks :=
  match recentBody df pid now with
  | .ok r => r
  | .error _ => allNullRecent

/-- Format body of `next_milestone_format` (backend lines 629-651, the
try-guarded part): reads the first matching row's finish date and task
name; NaN date renders a placeholder, otherwise the day difference
against `now` picks the suffix. -/
def fmtBody (m : List Row) (now : ℤ) : Except String String := do
  let r := m.headD []
  let nd ←
    match r.lookup "task_finish_date" with
    | none => throw "KeyError: task_finish_date"
    | some v => pure v
  let tn ←
    match r.lookup "task_name" with
    | none => throw "KeyError: task_name"
    | some v => pure v
  if nd = .vnan then
    return pyStr tn ++ " (日付なし)"
  match nd with
  | .vts t =>
    let dd := (t - now) / 86400
    if 0 < dd then return pyStr tn ++ " (" ++ toString dd ++ "日後)"
    else if dd < 0 then return pyStr tn ++ " (" ++ toString dd.natAbs ++ "日前)"
    else return pyStr tn ++ " (本日)"
  | _ => throw "TypeError: unsupported operand"

/-- Backend `next_milestone_format(next_milestones, project_id)` (lines
602-651): the project filter (line 624) runs OUTSIDE the try block, so a
missing `project_id` column raises; an empty match returns "-"; the body
errors are caught and also render "-". -/
def next_milestone_format (ms : DataFrame) (pid : String) (now : ℤ) :
    Except String String := do
  let m ← projectFilter ms pid
  if m.length = 0 then return "-"
  match fmtBody m now with
  | .ok s => return s
  | .error _ => return "-"

/-- State of the module-level cache (`_data_cache` plus `_cache_stats`):
entries carry key, stored result and store-time, in Python-dict insertion
order; `hits`/`misses` are the counters.  The stored result type is a
parameter (the wrapped functions return frames, ints, dicts...). -/
structure CacheState (V : Type) where
  entries : List (String × V × ℤ)
  hits : ℕ
  misses : ℕ
deriving DecidableEq, Repr

/-- Dict lookup `_data_cache[cache_key]`. -/
def lookupEntry {V : Type} (es : List (String × V × ℤ)) (k : String) :
    Option (V × ℤ) :=
  (es.find? (fun e => e.1 == k)).map (fun e => e.2)

/-- Smallest stored timestamp of the cache. -/
def minTimestamp {V : Type} : List (String × V × ℤ) → Option ℤ
  | [] => none
  | e :: es =>
    match minTimestamp es with
    | none => some e.2.2
    | some m => some (min e.2.2 m)

/-- Remove the first entry carrying timestamp `m` (Python
`min(items, key=timestamp)` returns the first minimal item in insertion
order, and `del` removes exactly it). -/
def removeFirstWithTs {V : Type} : List (String × V × ℤ) → ℤ →
    List (String × V × ℤ)
  | [], _ => []
  | e :: es, m => if e.2.2 = m then es else e :: removeFirstWithTs es m

/-- Evict the single oldest-timestamp entry (backend lines 105-108); the
empty cache is returned unchanged (Python would raise on `min([])`, which
is only reachable when `max_entries <= 0`; the claims assume at least 1). -/
def removeOldest {V : Type} (es : List (String × V × ℤ)) :
    List (String × V × ℤ) :=
  match minTimestamp es with
  | none => es
  | some m => removeFirstWithTs es m

/-- Dict store `_data_cache[key] = (v, t)`: overwrite in place when the
key exists, append otherwise. -/
def storeEntry {V : Type} (es : List (String × V × ℤ)) (k : String)
    (v : V) (t : ℤ) : List (String × V × ℤ) :=
  if (es.find? (fun e => e.1 == k)).isSome then
    es.map (fun e => if e.1 == k then (k, v, t) else e)
  else es ++ [(k, v, t)]

/-- The miss path of the memoizing wrapper (backend lines 100-111):
count the miss, compute, evict the oldest entry when the store has
reached `maxEntries`, then insert with the current time. -/
def cacheMiss {V : Type} (maxEntries : ℕ) (st : CacheState V) (k : String)
    (now : ℤ) (computed : V) : V × CacheState V :=
  let es1 := if maxEntries ≤ st.entries.length then removeOldest st.entries
             else st.entries
  (computed, ⟨storeEntry es1 k computed now, st.hits, st.misses + 1⟩)

/-- One call through the `cache_result` wrapper (backend lines 74-113)
with precomputed cache key `k`, current time `now` and the value the
wrapped function would compute (`computed`): a stored entry younger than
`ttl` is a hit returning the STORED value; everything else is a miss. -/
def cacheCall {V : Type} (ttl : ℤ) (maxEntries : ℕ) (st : CacheState V)
    (k : String) (now : ℤ) (computed : V) : V × CacheState V :=
  match lookupEntry st.entries k with
  | some (v, ts) =>
    if now - ts < ttl then (v, ⟨st.entries, st.hits + 1, st.misses⟩)
    else cacheMiss maxEntries st k now computed
  | none => cacheMiss maxEntries st k now computed

/-- Run a sequence of wrapper calls, each given as
(cache key, call time, value computed on a miss). -/
def runCalls {V : Type} (ttl : ℤ) (maxEntries : ℕ) (st : CacheState V) :
    List (String × ℤ × V) → CacheState V
  | [] => st
  | c :: cs => runCalls ttl maxEntries (cacheCall ttl maxEntries st c.1 c.2.1 c.2.2).2 cs

/-- The empty cache with zeroed counters. -/
def emptyCache (V : Type) : CacheState V :=
  ⟨[], 0, 0⟩

/-- Environment of the path resolver and loader: the `APP_PATH` variable,
the user home directory, the working directory and its parent.  Paths are
abstract strings joined with "/". -/
structure Env where
  appPath : String
  home : String
  cwd : String
  cwdParent : String
deriving DecidableEq, Repr

/-- A stored CSV file: the tables it decodes to, per encoding name (an
encoding absent from the list fails to decode; a file whose list is empty
fails under every encoding, which also covers `EmptyDataError`). -/
abbrev Decodings := List (String × DataFrame)

/-- Abstract file system: the directories that exist and the files that
exist with their per-encoding decode results. -/
structure FileSystem where
  dirs : List String
  files : List (String × Decodings)
deriving DecidableEq, Repr

/-- `os.path.exists` / `Path.exists` for files. -/
def fileExists (fs : FileSystem) (p : String) : Bool :=
  (fs.files.find? (fun f => f.1 == p)).isSome

/-- Directory existence (`folder.exists()`). -/
def dirExists (fs : FileSystem) (p : String) : Bool :=
  fs.dirs.contains p

/-- `pd.read_csv(path, encoding=enc)`: `none` models the read raising. -/
def readCSV (fs : FileSystem) (p : String) (enc : String) :
    Option DataFrame :=
  (fs.files.find? (fun f => f.1 == p)).bind
    (fun f => ((f.2.find? (fun d => d.1 == enc)).map (fun d => d.2)))

/-- The seven user folders probed by the resolver (backend lines 146-154),
in order. -/
def userFolderCandidates (env : Env) : List String :=
  [env.home ++ "/Documents", env.home ++ "/Desktop",
   env.home ++ "/Downloads", env.home ++ "/ドキュメント",
   env.home ++ "/デスクトップ", env.home ++ "/ダウンロード",
   env.home ++ "/文書"]

/-- `folder / "ProjectSuite" / "ProjectManager" / "data" / "exports" /
"dashboard.csv"`. -/
def projectSuiteTarget (folder : String) : String :=
  folder ++ "/ProjectSuite/ProjectManager/data/exports/dashboard.csv"

/-- Backend `resolve_dashboard_path()` (lines 116-181) with the
process-lifetime cache empty (first call): try the APP_PATH bundle, then
the user-folder targets, then the accumulated search list again, and fall
back to a path derived from the first existing user folder (or the home
directory) WITHOUT creating any file — the function only returns a
string. -/
def resolve_dashboard_path (env : Env) (fs : FileSystem) : String :=
  let bundle := env.appPath ++ "/data/exports/dashboard.csv"
  if env.appPath ≠ "" && fileExists fs bundle then bundle
  else
    let userFolders := (userFolderCandidates env).filter (dirExists fs)
    let targets := userFolders.map projectSuiteTarget
    match targets.find? (fileExists fs) with
    | some p => p
    | none =>
      let searchPaths :=
        (if env.appPath ≠ "" then [bundle] else []) ++ targets
      match searchPaths.find? (fileExists fs) with
      | some p => p
      | none =>
        match userFolders with
        | f :: _ => f ++ "/data/exports/dashboard.csv"
        | [] => env.home ++ "/data/exports/dashboard.csv"

/-- The two cwd-relative alternates probed when the primary path is
missing (backend lines 214-217). -/
def altPaths (env : Env) : List String :=
  [env.cwd ++ "/data/exports/dashboard.csv",
   env.cwdParent ++ "/data/exports/dashboard.csv"]

/-- The encodings the loader tries, in order (backend line 236). -/
def loaderEncodings : List String :=
  ["utf-8-sig", "utf-8", "cp932", "shift-jis"]

/-- First encoding under which the file decodes, with the decoded frame. -/
def firstDecode (fs : FileSystem) (p : String) :
    Option (String × DataFrame) :=
  loaderEncodings.foldr
    (fun enc acc =>
      match readCSV fs p enc with
      | some df => some (enc, df)
      | none => acc)
    none

/-- Left-join of the three selected project columns onto the task table
(backend lines 262-268): every task row keeps its data; matching is raw
`project_id` cell equality; unmatched rows get NaN in the joined columns;
several matches duplicate the task row (pandas merge semantics). -/
def mergeProjects (t p : DataFrame) : DataFrame :=
  ⟨t.cols ++ ["project_path", "ganttchart_path"],
   t.rows.flatMap (fun r =>
     match p.rows.filter (fun q =>
         decide (getv q "project_id" = getv r "project_id")) with
     | [] => [r ++ [("project_path", Value.vnan),
                    ("ganttchart_path", Value.vnan)]]
     | ms => ms.map (fun q =>
         r ++ [("project_path", getv q "project_path"),
               ("ganttchart_path", getv q "ganttchart_path")]))⟩

/-- `pd.to_datetime(cell, errors="coerce")`: timestamps stay (a parseable
date string is represented as its parsed timestamp already, see the
module comment), int64 cells are nanoseconds since the epoch, everything
else coerces to NaT. -/
def coerceDate (v : Value) : Value :=
  match v with
  | .vts t => .vts t
  | .vint n => .vts (n / 1000000000)
  | _ => .vnan

/-- The three date columns the loader coerces (backend line 273). -/
def dateColumns : List String :=
  ["task_start_date", "task_finish_date", "created_at"]

/-- Coerce the date columns of a frame that has them (backend lines
272-279). -/
def coerceDates (df : DataFrame) : DataFrame :=
  ⟨df.cols, df.rows.map (fun r => r.map (fun cv =>
    if dateColumns.contains cv.1 then (cv.1, coerceDate cv.2) else cv))⟩

/-- The decode-failure frame (backend lines 248-251). -/
def decodeErrorDf : DataFrame :=
  ⟨["error", "details"],
   [[("error", Value.vstr "CSVファイルの読み込みに失敗しました。以下のエンコーディングを試しましたが失敗しました:"),
     ("details", Value.vstr "encoding errors")]]⟩

/-- Try-guarded body of backend `load_and_process_data` (lines 201-281).
An `.error` models an exception reaching the outer handler.  Note the
file-not-found branch (lines 226-231): it builds a DataFrame from a dict
whose `error_message` list has 1 element but whose `additional_info` list
has 3 (the header line plus the two alternates), so the constructor
itself raises `ValueError: All arrays must be of the same length`, which
the outer handler converts — the branch can never actually return its
`error_message` frame. -/
def loadBody (env : Env) (fs : FileSystem) (pathArg : Option String) :
    Except String DataFrame := do
  let p0 :=
    match pathArg with
    | none => resolve_dashboard_path env fs
    | some "" => resolve_dashboard_path env fs
    | some p => p
  let p ←
    if fileExists fs p0 then pure p0
    else
      match (altPaths env).find? (fileExists fs) with
      | some alt => pure alt
      | none => throw "ValueError: All arrays must be of the same length"
  match firstDecode fs p with
  | none => return decodeErrorDf
  | some (enc, raw) =>
    let projectsPath := p.replace "dashboard.csv" "projects.csv"
    let merged :=
      if fileExists fs projectsPath then
        match readCSV fs projectsPath enc with
        | some praw =>
          if hasCol praw "project_id" && hasCol praw "project_path" &&
             hasCol praw "ganttchart_path" then
            mergeProjects raw praw
          else raw
        | none => raw
      else raw
    return coerceDates merged

/-- Backend `load_and_process_data` (lines 184-285): total; the outer
try/except converts any escaping exception into the single-column
`{"error": [message]}` frame. -/
def load_and_process_data (env : Env) (fs : FileSystem)
    (pathArg : Option String) : DataFrame :=
  match loadBody env fs pathArg with
  | .ok df => df
  | .error e =>
    ⟨["error"],
     [[("error", Value.vstr ("データ読み込み処理中にエラーが発生しました: " ++ e))]]⟩

/-- The delay predicate exactly as the spec words it (stated independently
of the code): the finish date reduced to a calendar day is strictly before
today AND the status is not the completion sentinel; a cell with no
calendar day (NaT) satisfies nothing. -/
def specDelayed (r : Row) (today : ℤ) : Bool :=
  (match getv r "task_finish_date" with
   | .vts t => decide (dayOf t < today)
   | _ => false) &&
  neStrB (getv r "task_status") "完了"

/-- The spec's ingest-boundary normalization of a project id: its string
representation. -/
def normalizeValue (v : Value) : Value :=
  .vstr (pyStr v)

/-- Normalize the `project_id` cell of a row. -/
def normalizeRow (r : Row) : Row :=
  r.map (fun cv =>
    if cv.1 = "project_id" then (cv.1, normalizeValue cv.2) else cv)

/-- Normalize the `project_id` column of a frame (what the spec's
"normalize once at the ingest boundary" would produce). -/
def normalizeFrame (df : DataFrame) : DataFrame :=
  ⟨df.cols, df.rows.map normalizeRow⟩

/-- The nine columns the source asserts into every rollup result
(backend lines 486-489). -/
def requiredResultCols : List String :=
  ["project_id", "project_name", "total_tasks", "completed_tasks",
   "milestone_count", "start_date", "end_date", "progress", "duration"]

/-- The fallback path `resolve_dashboard_path` returns when nothing is
found (backend line 178): derived from the first existing user folder,
or from the home directory; no file is created there. -/
def fallbackPath (env : Env) (fs : FileSystem) : String :=
  match (userFolderCandidates env).filter (dirExists fs) with
  | f :: _ => f ++ "/data/exports/dashboard.csv"
  | [] => env.home ++ "/data/exports/dashboard.csv"

/-- The frame `load_and_process_data` actually returns when the file and
both alternates are missing: the dict literal of the file-not-found
branch has columns of unequal lengths, so its construction raises and
the outer handler wraps that ValueError. -/
def loadErrorFrame : DataFrame :=
  ⟨["error"],
   [[("error", Value.vstr ("データ読み込み処理中にエラーが発生しました: ValueError: All arrays must be of the same length"))]]⟩

theorem lookup_storeEntry {V : Type} (es : List (String × V × ℤ))
    (k : String) (v : V) (t : ℤ) :
    lookupEntry (storeEntry es k v t) k = some (v, t) := by
  unfold storeEntry lookupEntry
  by_cases h : (es.find? (fun e => e.1 == k)).isSome
  · rw [if_pos h]
    induction es with
    | nil => simp at h
    | cons e es ih =>
      by_cases he : (e.1 == k) = true
      · rw [List.map_cons, if_pos he,
          List.find?_cons_of_pos _ (by simp)]
        rfl
      · have he2 : ((if (e.1 == k) = true then (k, v, t) else e).1 == k)
            = false := by
          rw [if_neg he]
          simpa using he
        rw [List.map_cons, List.find?_cons_of_neg _ (by rw [he2]; simp)]
        apply ih
        have : (e :: es).find? (fun e => e.1 == k) = es.find? (fun e => e.1 == k) :=
          List.find?_cons_of_neg _ (by simpa using he)
        rwa [this] at h
  · rw [if_neg h]
    have hnone : es.find? (fun e => e.1 == k) = none := by
      cases hf : es.find? (fun e => e.1 == k) with
      | none => rfl
      | some x => rw [hf] at h; simp at h
    rw [List.find?_append, hnone]
    simp [List.find?]

theorem find?_removeFirst_none {V : Type} (es : List (String × V × ℤ))
    (m : ℤ) (p : String × V × ℤ → Bool) (h : es.find? p = none) :
    (removeFirstWithTs es m).find? p = none := by
  rw [List.find?_eq_none] at h ⊢
  intro x hx
  apply h
  clear h
  induction es with
  | nil => simp [removeFirstWithTs] at hx
  | cons e es ih =>
    unfold removeFirstWithTs at hx
    by_cases he : e.2.2 = m
    · rw [if_pos he] at hx
      exact List.mem_cons_of_mem _ hx
    · rw [if_neg he] at hx
      rcases List.mem_cons.mp hx with hx | hx
      · exact hx ▸ List.mem_cons_self _ _
      · exact List.mem_cons_of_mem _ (ih hx)

theorem minTimestamp_isSome {V : Type} (e : String × V × ℤ)
    (es : List (String × V × ℤ)) :
    ∃ m, minTimestamp (e :: es) = some m := by
  unfold minTimestamp
  cases minTimestamp (V := V) es <;> exact ⟨_, rfl⟩

theorem minTimestamp_spec {V : Type} :
    ∀ (es : List (String × V × ℤ)) (m : ℤ), minTimestamp es = some m →
      (∃ e ∈ es, e.2.2 = m) ∧ ∀ e ∈ es, m ≤ e.2.2 := by
  intro es
  induction es with
  | nil => intro m h; simp [minTimestamp] at h
  | cons e es ih =>
    intro m h
    cases hes : minTimestamp (V := V) es with
    | none =>
      have hm : e.2.2 = m := by
        have := h
        unfold minTimestamp at this
        rw [hes] at this
        simpa using this
      have hnil : es = [] := by
        cases es with
        | nil => rfl
        | cons f fs =>
          exfalso
          rcases minTimestamp_isSome f fs with ⟨m2, hm2⟩
          rw [hm2] at hes
          exact Option.noConfusion hes
      subst hnil
      refine ⟨⟨e, by simp, hm⟩, ?_⟩
      intro f hf
      have : f = e := by simpa using hf
      rw [this, hm]
    | some m2 =>
      have hm : min e.2.2 m2 = m := by
        have := h
        unfold minTimestamp at this
        rw [hes] at this
        simpa using this
      rcases ih m2 hes with ⟨⟨e2, he2, he2m⟩, hall⟩
      by_cases hle : e.2.2 ≤ m2
      · have hme : m = e.2.2 := by rw [← hm, min_eq_left hle]
        subst hme
        refine ⟨⟨e, by simp, rfl⟩, ?_⟩
        intro f hf
        rcases List.mem_cons.mp hf with hf | hf
        · rw [hf]
        · exact le_trans hle (hall f hf)
      · have hlt : m2 ≤ e.2.2 := le_of_not_le hle
        have hmm : m = m2 := by rw [← hm, min_eq_right hlt]
        subst hmm
        refine ⟨⟨e2, List.mem_cons_of_mem _ he2, he2m⟩, ?_⟩
        intro f hf
        rcases List.mem_cons.mp hf with hf | hf
        · rw [hf]; exact hlt
        · exact hall f hf

theorem removeFirstWithTs_length {V : Type} :
    ∀ (es : List (String × V × ℤ)) (m : ℤ), (∃ e ∈ es, e.2.2 = m) →
      (removeFirstWithTs es m).length + 1 = es.length := by
  intro es
  induction es with
  | nil => intro m h; simp at h
  | cons e es ih =>
    intro m h
    unfold removeFirstWithTs
    by_cases he : e.2.2 = m
    · simp [he]
    · rcases h with ⟨f, hf, hfm⟩
      rcases List.mem_cons.mp hf with hf | hf
      · exact absurd (hf ▸ hfm) he
      · simp only [if_neg he, List.length_cons]
        rw [ih m ⟨f, hf, hfm⟩]

theorem storeEntry_length_le {V : Type} (es : List (String × V × ℤ))
    (k : String) (v : V) (t : ℤ) :
    (storeEntry es k v t).length ≤ es.length + 1 := by
  unfold storeEntry
  by_cases h : (es.find? (fun e => e.1 == k)).isSome
  · simp [h]
  · simp [h]

theorem cacheCall_length_le {V : Type} (ttl : ℤ) (maxE : ℕ)
    (hmax : 1 ≤ maxE) (st : CacheState V) (k : String) (now : ℤ) (v : V)
    (hst : st.entries.length ≤ maxE) :
    ((cacheCall ttl maxE st k now v).2.entries).length ≤ maxE := by
  have hmiss : ((cacheMiss maxE st k now v).2.entries).length ≤ maxE := by
    unfold cacheMiss
    by_cases hle : maxE ≤ st.entries.length
    · have heq : st.entries.length = maxE := le_antisymm hst hle
      rw [if_pos hle]
      have hlen2 : (removeOldest st.entries).length + 1 = maxE := by
        cases hes : st.entries with
        | nil =>
          rw [hes] at heq
          simp at heq
          omega
        | cons e es =>
          rcases minTimestamp_isSome e es with ⟨m, hm⟩
          have hex : ∃ f ∈ e :: es, f.2.2 = m :=
            (minTimestamp_spec (e :: es) m hm).1
          have hro : removeOldest (e :: es) = removeFirstWithTs (e :: es) m := by
            unfold removeOldest
            rw [hm]
          rw [hro, removeFirstWithTs_length (e :: es) m hex, ← hes]
          exact heq
      calc (storeEntry (removeOldest st.entries) k v now).length
          ≤ (removeOldest st.entries).length + 1 := storeEntry_length_le _ _ _ _
        _ = maxE := hlen2
    · have hlt : st.entries.length < maxE := lt_of_not_le hle
      rw [if_neg hle]
      calc (storeEntry st.entries k v now).length
          ≤ st.entries.length + 1 := storeEntry_length_le _ _ _ _
        _ ≤ maxE := by omega
  unfold cacheCall
  cases hkl : lookupEntry st.entries k with
  | none => simp only [hkl]; exact hmiss
  | some vt =>
    obtain ⟨v0, t0⟩ := vt
    simp only [hkl]
    by_cases hage : now - t0 < ttl
    · rw [if_pos hage]; exact hst
    · rw [if_neg hage]; exact hmiss

theorem cacheCall_fresh {V : Type} (ttl : ℤ) (maxE : ℕ)
    (st : CacheState V) (k : String) (now : ℤ) (v : V)
    (h : lookupEntry st.entries k = none) :
    cacheCall ttl maxE st k now v = cacheMiss maxE st k now v := by
  unfold cacheCall
  rw [h]

theorem cacheCall_hit {V : Type} (ttl : ℤ) (maxE : ℕ)
    (st : CacheState V) (k : String) (now : ℤ) (v v0 : V) (t0 : ℤ)
    (h : lookupEntry st.entries k = some (v0, t0))
    (hage : now - t0 < ttl) :
    cacheCall ttl maxE st k now v
      = (v0, ⟨st.entries, st.hits + 1, st.misses⟩) := by
  unfold cacheCall
  simp only [h]
  rw [if_pos hage]

theorem cacheCall_expired {V : Type} (ttl : ℤ) (maxE : ℕ)
    (st : CacheState V) (k : String) (now : ℤ) (v v0 : V) (t0 : ℤ)
    (h : lookupEntry st.entries k = some (v0, t0))
    (hage : ¬ now - t0 < ttl) :
    cacheCall ttl maxE st k now v = cacheMiss maxE st k now v := by
  unfold cacheCall
  simp only [h]
  rw [if_neg hage]

theorem runCalls_length_le {V : Type} (ttl : ℤ) (maxE : ℕ)
    (hmax : 1 ≤ maxE) :
    ∀ (calls : List (String × ℤ × V)) (st : CacheState V),
      st.entries.length ≤ maxE →
      ((runCalls ttl maxE st calls).entries).length ≤ maxE := by
  intro calls
  induction calls with
  | nil => intro st h; exact h
  | cons c cs ih =>
    intro st h
    unfold runCalls
    exact ih _ (cacheCall_length_le ttl maxE hmax st c.1 c.2.1 c.2.2 h)

/-- C8: starting from the empty cache, any sequence of memoized calls
leaves at most `max_entries` cache entries; and whenever a miss arrives
with the store already at `max_entries` (in particular when inserting a
fresh key), exactly one entry with the minimal stored timestamp is
removed before the new entry is appended, leaving exactly `max_entries`
entries.  Requires `max_entries >= 1` (with `max_entries = 0` the Python
source would raise on `min([])`). -/
theorem cache_eviction_bound {V : Type} (ttl : ℤ) (maxE : ℕ)
    (hmax : 1 ≤ maxE) (calls : List (String × ℤ × V)) :
    ((runCalls ttl maxE (emptyCache V) calls).entries).length ≤ maxE ∧
    (∀ (st : CacheState V) (k : String) (now : ℤ) (v : V),
      lookupEntry st.entries k = none →
      st.entries.length = maxE →
      ∃ ev, ev ∈ st.entries ∧ (∀ e ∈ st.entries, ev.2.2 ≤ e.2.2) ∧
        (cacheCall ttl maxE st k now v).2.entries
          = removeFirstWithTs st.entries ev.2.2 ++ [(k, v, now)] ∧
        ((cacheCall ttl maxE st k now v).2.entries).length = maxE) := by
  constructor
  · exact runCalls_length_le ttl maxE hmax calls (emptyCache V) (by simp [emptyCache])
  · intro st k now v hfresh hlen
    have hne : st.entries ≠ [] := by
      intro hnil
      rw [hnil] at hlen
      simp at hlen
      omega
    obtain ⟨e0, es0, hes⟩ : ∃ e0 es0, st.entries = e0 :: es0 := by
      cases hx : st.entries with
      | nil => exact absurd hx hne
      | cons a b => exact ⟨a, b, rfl⟩
    rcases minTimestamp_isSome e0 es0 with ⟨m, hm⟩
    have hm2 : minTimestamp st.entries = some m := by rw [hes]; exact hm
    rcases minTimestamp_spec st.entries m hm2 with ⟨⟨ev, hev, hevm⟩, hall⟩
    have hfind : st.entries.find? (fun e => e.1 == k) = none := by
      cases hf : st.entries.find? (fun e => e.1 == k) with
      | none => rfl
      | some x =>
        unfold lookupEntry at hfresh
        rw [hf] at hfresh
        exact Option.noConfusion hfresh
    have hro : removeOldest st.entries = removeFirstWithTs st.entries m := by
      unfold removeOldest
      rw [hm2]
    have hfind2 : (removeFirstWithTs st.entries m).find? (fun e => e.1 == k)
        = none := find?_removeFirst_none _ _ _ hfind
    have hle2 : maxE ≤ st.entries.length := le_of_eq hlen.symm
    have hstore : storeEntry (removeFirstWithTs st.entries m) k v now
        = removeFirstWithTs st.entries m ++ [(k, v, now)] := by
      unfold storeEntry
      rw [hfind2]
      simp
    have hstep : (cacheCall ttl maxE st k now v).2.entries
        = removeFirstWithTs st.entries m ++ [(k, v, now)] := by
      have h1 : cacheCall ttl maxE st k now v = cacheMiss maxE st k now v := by
        unfold cacheCall
        rw [hfresh]
      rw [h1]
      have h2 : cacheMiss maxE st k now v
          = (v, ⟨storeEntry (removeFirstWithTs st.entries m) k v now,
                 st.hits, st.misses + 1⟩) := by
        simp only [cacheMiss, if_pos hle2, hro]
      rw [h2, hstore]
    refine ⟨ev, hev, ?_, ?_, ?_⟩
    · intro e he
      rw [hevm]
      exact hall e he
    · rw [hevm]; exact hstep
    · have hrl := removeFirstWithTs_length st.entries m ⟨ev, hev, hevm⟩
      rw [hstep]
      simp only [List.length_append, List.length_singleton]
      omega

/-- Witness for the cache eviction bound: five distinct keys against
`max_entries = 2` leave two entries, and a miss on key "c" against a
full two-entry store evicts the oldest entry ("a", stored at time 0). -/
theorem cache_eviction_bound_witness :
    ((runCalls 60 2 (emptyCache ℕ)
        [("a", 0, 1), ("b", 1, 2), ("c", 2, 3), ("d", 3, 4), ("e", 4, 5)]).entries).length ≤ 2 ∧
    (∃ ev, ev ∈ [("a", 1, (0 : ℤ)), ("b", 2, (5 : ℤ))] ∧
      (∀ e ∈ [("a", 1, (0 : ℤ)), ("b", 2, (5 : ℤ))], ev.2.2 ≤ e.2.2) ∧
      (cacheCall 60 2 ⟨[("a", 1, 0), ("b", 2, 5)], 0, 0⟩ "c" 9 7).2.entries
        = removeFirstWithTs [("a", 1, 0), ("b", 2, 5)] ev.2.2 ++ [("c", 7, 9)] ∧
      ((cacheCall 60 2 ⟨[("a", 1, 0), ("b", 2, 5)], 0, 0⟩ "c" 9 7).2.entries).length = 2) := by
  have h := cache_eviction_bound (V := ℕ) 60 2 (by decide)
    [("a", 0, 1), ("b", 1, 2), ("c", 2, 3), ("d", 3, 4), ("e", 4, 5)]
  exact ⟨h.1, h.2 ⟨[("a", 1, 0), ("b", 2, 5)], 0, 0⟩ "c" 9 7 (by decide) (by decide)⟩

/-- C9: calling a memoized function a second time with the same cache
key inside the TTL window returns the value stored by the first call
(not the freshly computed one), increments only the hit counter and
leaves the store untouched; a third call past the TTL increments the
miss counter, not the hit counter, and returns a recomputed value. -/
theorem cache_ttl_idempotence {V : Type} (ttl : ℤ) (maxE : ℕ)
    (st : CacheState V) (k : String) (t0 t1 t2 : ℤ) (v0 v1 v2 : V)
    (hfresh : lookupEntry st.entries k = none)
    (hin : t1 - t0 < ttl) (hout : ttl ≤ t2 - t0) :
    (cacheCall ttl maxE st k t0 v0).1 = v0 ∧
    (cacheCall ttl maxE st k t0 v0).2.misses = st.misses + 1 ∧
    (cacheCall ttl maxE st k t0 v0).2.hits = st.hits ∧
    (cacheCall ttl maxE (cacheCall ttl maxE st k t0 v0).2 k t1 v1).1 = v0 ∧
    (cacheCall ttl maxE (cacheCall ttl maxE st k t0 v0).2 k t1 v1).2.hits
      = (cacheCall ttl maxE st k t0 v0).2.hits + 1 ∧
    (cacheCall ttl maxE (cacheCall ttl maxE st k t0 v0).2 k t1 v1).2.misses
      = (cacheCall ttl maxE st k t0 v0).2.misses ∧
    (cacheCall ttl maxE (cacheCall ttl maxE st k t0 v0).2 k t1 v1).2.entries
      = (cacheCall ttl maxE st k t0 v0).2.entries ∧
    (cacheCall ttl maxE
      (cacheCall ttl maxE (cacheCall ttl maxE st k t0 v0).2 k t1 v1).2 k t2 v2).1 = v2 ∧
    (cacheCall ttl maxE
      (cacheCall ttl maxE (cacheCall ttl maxE st k t0 v0).2 k t1 v1).2 k t2 v2).2.misses
      = (cacheCall ttl maxE st k t0 v0).2.misses + 1 ∧
    (cacheCall ttl maxE
      (cacheCall ttl maxE (cacheCall ttl maxE st k t0 v0).2 k t1 v1).2 k t2 v2).2.hits
      = (cacheCall ttl maxE st k t0 v0).2.hits + 1 := by
  have hc0 : cacheCall ttl maxE st k t0 v0 = cacheMiss maxE st k t0 v0 :=
    cacheCall_fresh ttl maxE st k t0 v0 hfresh
  have hc0e : (cacheCall ttl maxE st k t0 v0).2.entries
      = storeEntry (if maxE ≤ st.entries.length then removeOldest st.entries
          else st.entries) k v0 t0 := by
    rw [hc0]
    rfl
  have hlook : lookupEntry (cacheCall ttl maxE st k t0 v0).2.entries k
      = some (v0, t0) := by
    rw [hc0e]
    exact lookup_storeEntry _ _ _ _
  have hc1 : cacheCall ttl maxE (cacheCall ttl maxE st k t0 v0).2 k t1 v1
      = (v0, ⟨(cacheCall ttl maxE st k t0 v0).2.entries,
              (cacheCall ttl maxE st k t0 v0).2.hits + 1,
              (cacheCall ttl maxE st k t0 v0).2.misses⟩) :=
    cacheCall_hit ttl maxE _ k t1 v1 v0 t0 hlook (by omega)
  have hlook2 : lookupEntry
      (cacheCall ttl maxE (cacheCall ttl maxE st k t0 v0).2 k t1 v1).2.entries k
      = some (v0, t0) := by
    rw [hc1]
    exact hlook
  have hc2 : cacheCall ttl maxE
      (cacheCall ttl maxE (cacheCall ttl maxE st k t0 v0).2 k t1 v1).2 k t2 v2
      = cacheMiss maxE
          (cacheCall ttl maxE (cacheCall ttl maxE st k t0 v0).2 k t1 v1).2 k t2 v2 :=
    cacheCall_expired ttl maxE _ k t2 v2 v0 t0 hlook2 (by omega)
  refine ⟨by rw [hc0]; rfl, by rw [hc0]; rfl, by rw [hc0]; rfl,
    by rw [hc1], by rw [hc1], by rw [hc1], by rw [hc1],
    by rw [hc2]; rfl, ?_, ?_⟩
  · rw [hc2]
    have : (cacheCall ttl maxE (cacheCall ttl maxE st k t0 v0).2 k t1 v1).2.misses
        = (cacheCall ttl maxE st k t0 v0).2.misses := by rw [hc1]
    unfold cacheMiss
    simpa using this
  · rw [hc2]
    have : (cacheCall ttl maxE (cacheCall ttl maxE st k t0 v0).2 k t1 v1).2.hits
        = (cacheCall ttl maxE st k t0 v0).2.hits + 1 := by rw [hc1]
    unfold cacheMiss
    simpa using this

/-- Witness for the TTL behaviour: ttl 300 and max 50 as the source
defaults, a first call at time 0 computing 1, a second at time 100
offered value 2 but returning the stored 1 as a pure hit, and a third at
time 400 recomputing to 3 as a miss. -/
theorem cache_ttl_idempotence_witness :
    lookupEntry (emptyCache ℕ).entries "load_and_process_data:p" = none ∧
    (100 : ℤ) - 0 < 300 ∧ (300 : ℤ) ≤ 400 - 0 ∧
    (cacheCall 300 50 (emptyCache ℕ) "load_and_process_data:p" 0 1).1 = 1 ∧
    (cacheCall 300 50 (cacheCall 300 50 (emptyCache ℕ) "load_and_process_data:p" 0 1).2
      "load_and_process_data:p" 100 2).1 = 1 ∧
    (cacheCall 300 50 (cacheCall 300 50 (emptyCache ℕ) "load_and_process_data:p" 0 1).2
      "load_and_process_data:p" 100 2).2.hits = 1 ∧
    (cacheCall 300 50 (cacheCall 300 50 (emptyCache ℕ) "load_and_process_data:p" 0 1).2
      "load_and_process_data:p" 100 2).2.misses = 1 ∧
    (cacheCall 300 50
      (cacheCall 300 50 (cacheCall 300 50 (emptyCache ℕ) "load_and_process_data:p" 0 1).2
        "load_and_process_data:p" 100 2).2 "load_and_process_data:p" 400 3).1 = 3 ∧
    (cacheCall 300 50
      (cacheCall 300 50 (cacheCall 300 50 (emptyCache ℕ) "load_and_process_data:p" 0 1).2
        "load_and_process_data:p" 100 2).2 "load_and_process_data:p" 400 3).2.misses = 2 := by
  have h := cache_ttl_idempotence (V := ℕ) 300 50 (emptyCache ℕ)
    "load_and_process_data:p" 0 100 400 1 2 3 (by decide) (by decide) (by decide)
  refine ⟨by decide, by decide, by decide, h.1, h.2.2.2.1, ?_, ?_, h.2.2.2.2.2.2.2.1, ?_⟩
  · rw [h.2.2.2.2.1, h.2.2.1]
    decide
  · rw [h.2.2.2.2.2.1, h.2.1]
    decide
  · rw [h.2.2.2.2.2.2.2.2.1, h.2.1]
    decide

/-- C10: `get_recent_tasks` always yields the fixed four-slot shape (its
return type), and the all-None dictionary results BOTH from a project id
matching no rows AND from any internal exception, so a caller cannot
tell "no recent tasks" from "computation failed"; in every remaining
case the result is the successfully computed snapshot. -/
theorem get_recent_tasks_shape (df : DataFrame) (pid : String) (now : ℤ) :
    (projectFilter df pid = Except.ok [] →
      get_recent_tasks df pid now = allNullRecent) ∧
    (∀ e, recentBody df pid now = Except.error e →
      get_recent_tasks df pid now = allNullRecent) ∧
    (get_recent_tasks df pid now = allNullRecent ∨
      ∃ r, recentBody df pid now = Except.ok r ∧
        get_recent_tasks df pid now = r) := by
  refine ⟨?_, ?_, ?_⟩
  · intro h
    have hbody : recentBody df pid now = Except.ok allNullRecent := by
      unfold recentBody
      rw [h]
      rfl
    unfold get_recent_tasks
    rw [hbody]
  · intro e h
    unfold get_recent_tasks
    rw [h]
  · cases hb : recentBody df pid now with
    | ok r =>
      right
      refine ⟨r, rfl, ?_⟩
      unfold get_recent_tasks
      rw [hb]
    | error e =>
      left
      unfold get_recent_tasks
      rw [hb]

/-- Witness for the recent-task shape: an empty frame with the id column
gives the no-match all-None dict, and a one-row frame lacking the date
columns makes the body raise, also giving the all-None dict. -/
theorem get_recent_tasks_shape_witness :
    (projectFilter ⟨["project_id"], []⟩ "1" = Except.ok [] ∧
      get_recent_tasks ⟨["project_id"], []⟩ "1" 0 = allNullRecent) ∧
    (recentBody ⟨["project_id"], [[("project_id", Value.vint 7)]]⟩ "7" 0
        = Except.error "KeyError: task_finish_date" ∧
      get_recent_tasks ⟨["project_id"], [[("project_id", Value.vint 7)]]⟩ "7" 0
        = allNullRecent) :=
  ⟨⟨rfl, (get_recent_tasks_shape ⟨["project_id"], []⟩ "1" 0).1 rfl⟩,
   ⟨rfl, (get_recent_tasks_shape ⟨["project_id"],
      [[("project_id", Value.vint 7)]]⟩ "7" 0).2.1
      "KeyError: task_finish_date" rfl⟩⟩

/-- C1 counterexample: on the fully empty table (`pd.DataFrame()`, no
columns) the un-guarded entry points raise `KeyError` instead of
returning a result: the totality claim is false as stated. -/
theorem entry_point_totality_counterexample :
    check_delays ⟨[], []⟩ 0 = Except.error "KeyError: task_finish_date" ∧
    get_delayed_projects_count ⟨[], []⟩ 0
      = Except.error "KeyError: task_finish_date" ∧
    get_next_milestone ⟨[], []⟩ 0 false
      = Except.error "KeyError: task_milestone" :=
  ⟨rfl, rfl, rfl⟩

/-- C1 amended: `load_and_process_data`, `calculate_progress` and
`get_recent_tasks` are total (the first returns the caught-error frame
or the loaded frame, the second always carries the full rollup schema,
the third always returns the four-slot dict); but `check_delays`,
`get_delayed_projects_count` and `get_next_milestone` succeed exactly
when the columns they touch exist — on an empty table or one missing
`task_finish_date` / `task_status` / `task_milestone` / `project_id`
they raise `KeyError` across their boundary. -/
theorem entry_point_totality (df : DataFrame) (today now : ℤ) (ip : Bool)
    (pid : String) (env : Env) (fs : FileSystem) (pathArg : Option String) :
    ((check_delays df today).isOk
      = (hasCol df "task_finish_date" && hasCol df "task_status")) ∧
    ((get_delayed_projects_count df today).isOk
      = (hasCol df "task_finish_date" && hasCol df "task_status" &&
         hasCol df "project_id")) ∧
    ((get_next_milestone df now ip).isOk
      = (hasCol df "task_milestone" && hasCol df "task_finish_date")) ∧
    (requiredResultCols.all (fun c => hasCol (calculate_progress df now) c)
      = true) ∧
    (get_recent_tasks df pid now = allNullRecent ∨
      ∃ r, recentBody df pid now = Except.ok r ∧
        get_recent_tasks df pid now = r) ∧
    ((load_and_process_data env fs pathArg).cols = ["error"] ∨
      ∃ d, loadBody env fs pathArg = Except.ok d ∧
        load_and_process_data env fs pathArg = d) := by
  have hcd : (check_delays df today).isOk
      = (hasCol df "task_finish_date" && hasCol df "task_status") := by
    unfold check_delays
    cases hf : hasCol df "task_finish_date" <;>
      cases hs : hasCol df "task_status" <;> simp [Except.isOk, Except.toBool]
  refine ⟨hcd, ?_, ?_, ?_, ?_, ?_⟩
  · unfold get_delayed_projects_count check_delays
    cases hf : hasCol df "task_finish_date" <;>
      cases hs : hasCol df "task_status" <;>
      simp [Except.isOk, Except.toBool] <;>
      cases hp : hasCol ⟨df.cols, df.rows.filter (fun r =>
        dtDateLtB (getv r "task_finish_date") today &&
        neStrB (getv r "task_status") "完了")⟩ "project_id" <;>
      simp_all [hasCol, Except.isOk, Except.toBool]
  · unfold get_next_milestone get_next_milestone_all
    cases ip <;>
      cases hm : hasCol df "task_milestone" <;>
      cases hf : hasCol df "task_finish_date" <;>
      simp [hm, hf, Except.isOk, Except.toBool] <;>
      by_cases hfm : futureMilestoneRows df now = [] <;> simp [hfm]
  · unfold calculate_progress
    by_cases h1 : df.rows.isEmpty
    · rw [if_pos h1]; rfl
    · rw [if_neg h1]
      by_cases h2 : hasCol df "error" = true
      · rw [if_pos h2]; rfl
      · rw [if_neg h2]
        by_cases h3 : requiredColumns.any (fun c => hasCol df c = false) = true
        · rw [if_pos h3]; rfl
        · rw [if_neg h3]
          simp [requiredResultCols, hasCol, rollupCols, optionalCols]
  · cases hb : recentBody df pid now with
    | ok r =>
      right
      refine ⟨r, rfl, ?_⟩
      unfold get_recent_tasks
      rw [hb]
    | error e =>
      left
      unfold get_recent_tasks
      rw [hb]
  · cases hl : loadBody env fs pathArg with
    | ok d =>
      right
      refine ⟨d, rfl, ?_⟩
      unfold load_and_process_data
      rw [hl]
    | error e =>
      left
      unfold load_and_process_data
      rw [hl]

/-- A task due exactly today: finish timestamp at midnight of day 0,
status not completed. -/
def dfDueToday : DataFrame :=
  ⟨["project_id", "task_status", "task_finish_date"],
   [[("project_id", Value.vstr "A"), ("task_status", Value.vstr "進行中"),
     ("task_finish_date", Value.vts 0)]]⟩

/-- C2 counterexample: at noon of the same day (now = 43200 s), the
legacy Dash `check_delays` classifies the task due exactly today as
delayed (it compares full timestamps), contradicting the claim that a
task due today is never delayed; the backend version, on the same data
and day, correctly excludes it. -/
theorem delay_today_counterexample :
    dayOf 0 = dayOf 43200 ∧
    ProjectDashBoard.check_delays dfDueToday 43200
      = Except.ok ⟨dfDueToday.cols, dfDueToday.rows⟩ ∧
    check_delays dfDueToday (dayOf 43200)
      = Except.ok ⟨dfDueToday.cols, []⟩ :=
  ⟨rfl, rfl, rfl⟩

/-- C2 amended: the backend `check_delays` output is exactly the rows
satisfying the spec's date-only delay predicate (so a task due today is
never delayed THERE); the legacy Dash `check_delays` instead filters by
the full timestamp comparison `task_finish_date < now`, under which a
task due today with a finish time earlier than `now` is delayed. -/
theorem check_delays_spec (df : DataFrame) (today now : ℤ)
    (h1 : hasCol df "task_finish_date" = true)
    (h2 : hasCol df "task_status" = true) :
    check_delays df today
      = Except.ok ⟨df.cols, df.rows.filter (fun r => specDelayed r today)⟩ ∧
    ProjectDashBoard.check_delays df now
      = Except.ok ⟨df.cols, df.rows.filter (fun r =>
          tsLtB (getv r "task_finish_date") now &&
          neStrB (getv r "task_status") "完了")⟩ := by
  constructor
  · unfold check_delays
    simp only [h1, h2]
    rfl
  · unfold ProjectDashBoard.check_delays
    simp only [h1, h2]
    rfl

/-- First witness row: due yesterday, not completed (delayed). -/
def rowLate : Row :=
  [("project_id", Value.vstr "A"), ("task_status", Value.vstr "進行中"),
   ("task_finish_date", Value.vts (-86400))]

/-- Second witness row: due today at midnight, not completed. -/
def rowToday : Row :=
  [("project_id", Value.vstr "A"), ("task_status", Value.vstr "進行中"),
   ("task_finish_date", Value.vts 0)]

/-- Third witness row: past due but completed. -/
def rowDone : Row :=
  [("project_id", Value.vstr "A"), ("task_status", Value.vstr "完了"),
   ("task_finish_date", Value.vts (-86400))]

/-- Three-task witness frame for the delay queries. -/
def dfDelayW : DataFrame :=
  ⟨["project_id", "task_status", "task_finish_date"],
   [rowLate, rowToday, rowDone]⟩

/-- Witness: on the three-row frame at today = day 0, now = 1 hour into
day 0, the backend returns exactly the overdue incomplete row, while the
legacy version also sweeps in the task due today. -/
theorem check_delays_spec_witness :
    hasCol dfDelayW "task_finish_date" = true ∧
    hasCol dfDelayW "task_status" = true ∧
    check_delays dfDelayW 0 = Except.ok ⟨dfDelayW.cols, [rowLate]⟩ ∧
    ProjectDashBoard.check_delays dfDelayW 3600
      = Except.ok ⟨dfDelayW.cols, [rowLate, rowToday]⟩ := by
  have h := check_delays_spec dfDelayW 0 3600 rfl rfl
  exact ⟨rfl, rfl, h.1.trans rfl, h.2.trans rfl⟩

/-- A frame whose only milestone lies in the past (finish at day 0,
now = day 5). -/
def dfPastMilestoneOnly : DataFrame :=
  ⟨["project_id", "task_milestone", "task_finish_date", "task_name"],
   [[("project_id", Value.vstr "A"), ("task_milestone", Value.vstr "○"),
     ("task_finish_date", Value.vts 0), ("task_name", Value.vstr "m1")]]⟩

/-- C3 counterexample: with `include_past=False` and no future
milestone, the claim demands the empty result, but the function
RECURSES with `include_past=True` by itself and returns the past
milestone — the fallback is an automatic retry inside the function, not
a caller-explicit choice. -/
theorem next_milestone_auto_fallback_counterexample :
    futureMilestoneRows dfPastMilestoneOnly 432000 = [] ∧
    get_next_milestone dfPastMilestoneOnly 432000 false
      = Except.ok ⟨dfPastMilestoneOnly.cols, dfPastMilestoneOnly.rows⟩ :=
  ⟨rfl, rfl⟩

/-- C3 amended: with `include_past=False` the call returns the
future-finish milestone rows sorted ascending by finish date when that
set is nonempty; when it is empty the function automatically falls back
to `include_past=True` and returns ALL milestone rows sorted; the
explicit `include_past=True` call always returns all milestone rows
sorted. -/
theorem get_next_milestone_spec (df : DataFrame) (now : ℤ)
    (h1 : hasCol df "task_milestone" = true)
    (h2 : hasCol df "task_finish_date" = true) :
    get_next_milestone df now false
      = Except.ok ⟨df.cols, sortRows finishLe
          (if (futureMilestoneRows df now).isEmpty then milestoneRows df
           else futureMilestoneRows df now)⟩ ∧
    get_next_milestone df now true
      = Except.ok ⟨df.cols, sortRows finishLe (milestoneRows df)⟩ := by
  have hall : get_next_milestone_all df
      = Except.ok ⟨df.cols, sortRows finishLe (milestoneRows df)⟩ := by
    unfold get_next_milestone_all
    simp only [h1, h2]
    rfl
  constructor
  · unfold get_next_milestone
    simp only [h1, h2]
    by_cases hf : (futureMilestoneRows df now).isEmpty
    · simp only [hf, if_true, if_pos rfl]
      simpa using hall
    · simp only [hf]
      simp [hf]
  · simpa using hall

/-- A future milestone row (finish at day 10). -/
def rowFutureM : Row :=
  [("project_id", Value.vstr "A"), ("task_milestone", Value.vstr "○"),
   ("task_finish_date", Value.vts 864000), ("task_name", Value.vstr "m2")]

/-- A past milestone row (finish at day 0). -/
def rowPastM : Row :=
  [("project_id", Value.vstr "A"), ("task_milestone", Value.vstr "○"),
   ("task_finish_date", Value.vts 0), ("task_name", Value.vstr "m1")]

/-- Witness frame with one past and one future milestone. -/
def dfMilestoneW : DataFrame :=
  ⟨["project_id", "task_milestone", "task_finish_date", "task_name"],
   [rowFutureM, rowPastM]⟩

/-- Witness: at now = day 5, `include_past=False` yields exactly the
future milestone and `include_past=True` yields both sorted ascending. -/
theorem get_next_milestone_spec_witness :
    hasCol dfMilestoneW "task_milestone" = true ∧
    hasCol dfMilestoneW "task_finish_date" = true ∧
    get_next_milestone dfMilestoneW 432000 false
      = Except.ok ⟨dfMilestoneW.cols, [rowFutureM]⟩ ∧
    get_next_milestone dfMilestoneW 432000 true
      = Except.ok ⟨dfMilestoneW.cols, [rowPastM, rowFutureM]⟩ := by
  have h := get_next_milestone_spec dfMilestoneW 432000 rfl rfl
  exact ⟨rfl, rfl, h.1.trans rfl, h.2.trans rfl⟩

/-- Environment with no APP_PATH, a home directory, and a working
directory. -/
def env0 : Env :=
  ⟨"", "/home/u", "/cwd", "/"⟩

/-- A file system in which no file exists at all. -/
def fs0 : FileSystem :=
  ⟨[], []⟩

/-- C4 counterexample: with no CSV locatable anywhere, the resolver just
returns a home-derived path that does not exist — it writes no synthetic
CSV pair (it is a pure path computation) — and `load_and_process_data`
on an unfindable path returns the error-shaped single-column frame, not
a synthesized dataset. -/
theorem resolver_no_synthetic_counterexample :
    resolve_dashboard_path env0 fs0 = "/home/u/data/exports/dashboard.csv" ∧
    fileExists fs0 (resolve_dashboard_path env0 fs0) = false ∧
    load_and_process_data env0 fs0 (some "/nope/dashboard.csv")
      = loadErrorFrame ∧
    (load_and_process_data env0 fs0 (some "/nope/dashboard.csv")).cols
      = ["error"] :=
  ⟨rfl, rfl, rfl, rfl⟩

/-- C4 amended: when no file exists at any searched location,
`resolve_dashboard_path` returns the fallback path derived from the
first existing user folder (or home) without creating any file there,
and `load_and_process_data` — for any path argument — returns the
error-shaped frame: its own file-not-found report raises (its dict
columns have unequal lengths) and the outer handler converts that into
the `{error}` frame.  Synthetic sample-CSV generation exists only in
the Electron wrapper endpoint (src/python/server.py), outside the
resolver/loader path. -/
theorem load_resolution_failure (env : Env) (fs : FileSystem)
    (pathArg : Option String) (h : fs.files = []) :
    resolve_dashboard_path env fs = fallbackPath env fs ∧
    fileExists fs (resolve_dashboard_path env fs) = false ∧
    load_and_process_data env fs pathArg = loadErrorFrame := by
  have hex : ∀ p, fileExists fs p = false := by
    intro p
    unfold fileExists
    rw [h]
    rfl
  have hfind : ∀ l : List String, l.find? (fileExists fs) = none := by
    intro l
    apply List.find?_eq_none.mpr
    intro x _
    rw [hex x]
    exact Bool.false_ne_true
  refine ⟨?_, hex _, ?_⟩
  · unfold resolve_dashboard_path fallbackPath
    simp only [hex, Bool.and_false, Bool.false_eq_true, if_false, hfind]
  · unfold load_and_process_data loadBody
    simp only [hex, Bool.false_eq_true, if_false, hfind]
    rfl

/-- Witness for the resolution-failure behaviour at the concrete empty
file system. -/
theorem load_resolution_failure_witness :
    fs0.files = [] ∧
    resolve_dashboard_path env0 fs0 = fallbackPath env0 fs0 ∧
    fileExists fs0 (resolve_dashboard_path env0 fs0) = false ∧
    load_and_process_data env0 fs0 (some "/nope/dashboard.csv")
      = loadErrorFrame := by
  have h := load_resolution_failure env0 fs0 (some "/nope/dashboard.csv") rfl
  exact ⟨rfl, h.1, h.2.1, h.2.2⟩

theorem lookup_append_none (l1 l2 : List (String × Value)) (k : String)
    (h : List.lookup k l1 = none) :
    List.lookup k (l1 ++ l2) = List.lookup k l2 := by
  induction l1 with
  | nil => rfl
  | cons e l1 ih =>
    obtain ⟨a, b⟩ := e
    by_cases hk : (k == a) = true
    · simp [List.lookup, hk] at h
    · have hk2 : (k == a) = false := by
        cases hx : k == a
        · rfl
        · exact absurd hx hk
      simp only [List.lookup, hk2] at h
      simp only [List.cons_append, List.lookup, hk2]
      exact ih h

theorem lookup_opt_cols_none (cs : List String) (f : String → Value)
    (k : String) (h : ∀ c ∈ cs, (k == c) = false) :
    List.lookup k (cs.map (fun c => (c, f c))) = none := by
  induction cs with
  | nil => rfl
  | cons c cs ih =>
    simp only [List.map_cons, List.lookup, h c (by simp)]
    exact ih (fun x hx => h x (List.mem_cons_of_mem _ hx))

theorem getv_rollupRow_tail (df : DataFrame) (k : Value) (key : String)
    (h1 : (key == "project_id") = false)
    (h2 : (key == "project_name") = false)
    (h3 : (key == "task_id") = false)
    (hopt : ∀ c ∈ (["process", "line", "project_path", "ganttchart_path"] :
      List String), (key == c) = false) :
    getv (rollupRow df k) key = getv (rollupTail df k) key := by
  unfold rollupRow getv
  rw [List.append_assoc, lookup_append_none _ _ _ (by
    simp only [List.lookup, h1, h2, h3])]
  rw [lookup_append_none _ _ _ (lookup_opt_cols_none _ _ _ (by
    intro c hc
    have hc2 := (List.mem_filter.mp hc).1
    exact hopt c hc2))]

theorem getv_rollupRow_completed (df : DataFrame) (k : Value) :
    getv (rollupRow df k) "completed_tasks"
      = Value.vint (completedCount (groupRows df k) : ℤ) := by
  rw [getv_rollupRow_tail df k "completed_tasks" rfl rfl rfl (by decide)]
  rfl

theorem getv_rollupRow_total (df : DataFrame) (k : Value) :
    getv (rollupRow df k) "total_tasks"
      = Value.vint (taskCount (groupRows df k) : ℤ) := by
  rw [getv_rollupRow_tail df k "total_tasks" rfl rfl rfl (by decide)]
  rfl

theorem getv_rollupRow_progress (df : DataFrame) (k : Value) :
    getv (rollupRow df k) "progress"
      = progressValue (completedCount (groupRows df k))
          (taskCount (groupRows df k)) := by
  rw [getv_rollupRow_tail df k "progress" rfl rfl rfl (by decide)]
  rfl

theorem getv_rollupRow_start (df : DataFrame) (k : Value) :
    getv (rollupRow df k) "start_date"
      = minDateAgg (groupRows df k) "task_start_date" := by
  rw [getv_rollupRow_tail df k "start_date" rfl rfl rfl (by decide)]
  rfl

theorem getv_rollupRow_end (df : DataFrame) (k : Value) :
    getv (rollupRow df k) "end_date"
      = maxDateAgg (groupRows df k) "task_finish_date" := by
  rw [getv_rollupRow_tail df k "end_date" rfl rfl rfl (by decide)]
  rfl

theorem getv_rollupRow_duration (df : DataFrame) (k : Value) :
    getv (rollupRow df k) "duration"
      = durationValue (minDateAgg (groupRows df k) "task_start_date")
          (maxDateAgg (groupRows df k) "task_finish_date") := by
  rw [getv_rollupRow_tail df k "duration" rfl rfl rfl (by decide)]
  rfl

theorem mem_calculate_progress_rows (df : DataFrame) (now : ℤ) (r : Row)
    (hr : r ∈ (calculate_progress df now).rows) :
    r = errRollupRow "エラー" now ∨ r = errRollupRow "データエラー" now ∨
    ∃ k, k ∈ groupKeys df ∧ r = rollupRow df k := by
  unfold calculate_progress at hr
  by_cases h1 : df.rows.isEmpty
  · rw [if_pos h1] at hr
    simp at hr
  · rw [if_neg h1] at hr
    by_cases h2 : hasCol df "error" = true
    · rw [if_pos h2] at hr
      simp at hr
      exact Or.inl hr
    · rw [if_neg h2] at hr
      by_cases h3 : requiredColumns.any (fun c => hasCol df c = false) = true
      · rw [if_pos h3] at hr
        simp at hr
        exact Or.inr (Or.inl hr)
      · rw [if_neg h3] at hr
        simp only [List.mem_map] at hr
        obtain ⟨k, hk, hrk⟩ := hr
        exact Or.inr (Or.inr ⟨k, hk, hrk.symm⟩)

theorem rheDiv_nonneg (a b : ℤ) (ha : 0 ≤ a) (hb : 0 < b) :
    0 ≤ rheDiv a b := by
  have hq : 0 ≤ a / b := Int.ediv_nonneg ha hb.le
  unfold rheDiv
  split
  · exact hq
  · split
    · omega
    · split <;> omega

theorem rheDiv_le_mul (a b M : ℤ) (hb : 0 < b) (h : a ≤ M * b) :
    rheDiv a b ≤ M := by
  have hq : a / b ≤ M := by
    have h1 : a / b ≤ (M * b) / b := Int.ediv_le_ediv hb h
    rwa [Int.mul_ediv_cancel M hb.ne'] at h1
  have hmod : b * (a / b) + a % b = a := Int.ediv_add_emod a b
  have hm1 : 0 ≤ a % b := Int.emod_nonneg a hb.ne'
  have hm2 : a % b < b := Int.emod_lt_of_pos a hb
  rcases lt_or_eq_of_le hq with hlt | heq
  · unfold rheDiv
    split
    · exact hq
    · split
      · omega
      · split <;> omega
  · have hr0 : a % b = 0 := by nlinarith [hmod, heq, h]
    unfold rheDiv
    rw [hr0]
    rw [if_pos (by omega : 2 * (0:ℤ) < b)]
    exact hq

theorem progressValue_bounds (c t : ℕ) (hct : c ≤ t) :
    ∃ p : ℤ, progressValue c t = Value.vpct p ∧ 0 ≤ p ∧ p ≤ 10000 := by
  unfold progressValue
  by_cases ht : t = 0
  · have hc : c = 0 := by omega
    subst ht hc
    exact ⟨0, by simp, le_refl 0, by norm_num⟩
  · have htpos : (0 : ℤ) < (t : ℤ) := by
      have : 0 < t := Nat.pos_of_ne_zero ht
      exact_mod_cast this
    rw [if_neg ht]
    refine ⟨rheDiv (10000 * (c : ℤ)) (t : ℤ), rfl, ?_, ?_⟩
    · exact rheDiv_nonneg _ _ (by positivity) htpos
    · apply rheDiv_le_mul _ _ _ htpos
      have hcast : (c : ℤ) ≤ (t : ℤ) := by exact_mod_cast hct
      nlinarith

/-- The two-row frame exhibiting the progress-bound violation: both rows
are completed, but one has a null `task_id`, so the per-group `count`
aggregation sees 1 non-null task while the status sum sees 2 completed
tasks. -/
def dfNullTaskId : DataFrame :=
  ⟨requiredColumns,
   [[("project_id", Value.vstr "A"), ("project_name", Value.vstr "P"),
     ("task_id", Value.vnan), ("task_status", Value.vstr "完了"),
     ("task_start_date", Value.vts 0), ("task_finish_date", Value.vts 86400)],
    [("project_id", Value.vstr "A"), ("project_name", Value.vstr "P"),
     ("task_id", Value.vstr "t2"), ("task_status", Value.vstr "完了"),
     ("task_start_date", Value.vts 0), ("task_finish_date", Value.vts 86400)]]⟩

/-- C5 counterexample: on `dfNullTaskId` the single rollup row has
`completed_tasks = 2`, `total_tasks = 1` and `progress = 200.00`
(`vpct 20000` is the exact float 200.00), violating `progress ≤ 100`. -/
theorem progress_bounds_counterexample :
    (calculate_progress dfNullTaskId 0).rows.map (fun r => getv r "completed_tasks")
      = [Value.vint 2] ∧
    (calculate_progress dfNullTaskId 0).rows.map (fun r => getv r "total_tasks")
      = [Value.vint 1] ∧
    (calculate_progress dfNullTaskId 0).rows.map (fun r => getv r "progress")
      = [Value.vpct 20000] ∧
    (10000 : ℤ) < 20000 := by
  refine ⟨?_, ?_, ?_, by norm_num⟩ <;> decide

/-- C5 amended: every rollup row carries int counts `completed_tasks`
and `total_tasks` whose progress cell is either the degenerate-branch
literal 0 (with both counts 0) or exactly the source formula
`round(completed/total*100, 2)` — which is NaN-filled 0 for 0/0, +inf
for positive/0, and can exceed 100.00 when null `task_id` cells make
`completed > total`; when every input row has a non-null `task_id`,
`completed ≤ total` holds and the progress of every rollup row lies in
[0.00, 100.00] (hundredths p with 0 ≤ p ≤ 10000). -/
theorem progress_spec (df : DataFrame) (now : ℤ) (r : Row)
    (hr : r ∈ (calculate_progress df now).rows) :
    ∃ c t : ℕ,
      getv r "completed_tasks" = Value.vint (c : ℤ) ∧
      getv r "total_tasks" = Value.vint (t : ℤ) ∧
      ((getv r "progress" = Value.vint 0 ∧ c = 0 ∧ t = 0) ∨
        getv r "progress" = progressValue c t) ∧
      ((∀ r0 ∈ df.rows, getv r0 "task_id" ≠ Value.vnan) →
        ∃ p : ℤ,
          (getv r "progress" = Value.vint p ∨ getv r "progress" = Value.vpct p) ∧
          0 ≤ p ∧ p ≤ 10000) := by
  rcases mem_calculate_progress_rows df now r hr with h | h | ⟨k, hk, h⟩
  · subst h
    exact ⟨0, 0, rfl, rfl, Or.inl ⟨rfl, rfl, rfl⟩,
      fun _ => ⟨0, Or.inl rfl, le_refl 0, by norm_num⟩⟩
  · subst h
    exact ⟨0, 0, rfl, rfl, Or.inl ⟨rfl, rfl, rfl⟩,
      fun _ => ⟨0, Or.inl rfl, le_refl 0, by norm_num⟩⟩
  · subst h
    refine ⟨completedCount (groupRows df k), taskCount (groupRows df k),
      getv_rollupRow_completed df k, getv_rollupRow_total df k,
      Or.inr (getv_rollupRow_progress df k), ?_⟩
    intro hno
    have hsub : ∀ r0 ∈ groupRows df k, getv r0 "task_id" ≠ Value.vnan := by
      intro r0 hr0
      exact hno r0 (List.mem_filter.mp hr0).1
    have htc : taskCount (groupRows df k) = (groupRows df k).length := by
      unfold taskCount
      rw [List.filter_eq_self.mpr (fun r0 hr0 => by
        simpa using hsub r0 hr0)]
    have hcc : completedCount (groupRows df k) ≤ (groupRows df k).length :=
      List.length_filter_le _ _
    have hct : completedCount (groupRows df k) ≤ taskCount (groupRows df k) := by
      omega
    obtain ⟨p, hp, hp0, hp1⟩ := progressValue_bounds _ _ hct
    exact ⟨p, Or.inr (by rw [getv_rollupRow_progress df k, hp]), hp0, hp1⟩

/-- Witness frame for the progress bounds: two rows with non-null task
ids, one completed, giving progress 50.00. -/
def dfHalfDone : DataFrame :=
  ⟨requiredColumns,
   [[("project_id", Value.vstr "A"), ("project_name", Value.vstr "P"),
     ("task_id", Value.vstr "a"), ("task_status", Value.vstr "完了"),
     ("task_start_date", Value.vts 0), ("task_finish_date", Value.vts 86400)],
    [("project_id", Value.vstr "A"), ("project_name", Value.vstr "P"),
     ("task_id", Value.vstr "b"), ("task_status", Value.vstr "進行中"),
     ("task_start_date", Value.vts 0), ("task_finish_date", Value.vts 86400)]]⟩

/-- Witness: the half-done project rollup row satisfies the amended
progress property at a concrete input with non-null task ids. -/
theorem progress_spec_witness :
    rollupRow dfHalfDone (Value.vstr "A") ∈ (calculate_progress dfHalfDone 0).rows ∧
    (∃ c t : ℕ,
      getv (rollupRow dfHalfDone (Value.vstr "A")) "completed_tasks" = Value.vint (c : ℤ) ∧
      getv (rollupRow dfHalfDone (Value.vstr "A")) "total_tasks" = Value.vint (t : ℤ) ∧
      ((getv (rollupRow dfHalfDone (Value.vstr "A")) "progress" = Value.vint 0 ∧ c = 0 ∧ t = 0) ∨
        getv (rollupRow dfHalfDone (Value.vstr "A")) "progress" = progressValue c t) ∧
      ((∀ r0 ∈ dfHalfDone.rows, getv r0 "task_id" ≠ Value.vnan) →
        ∃ p : ℤ,
          (getv (rollupRow dfHalfDone (Value.vstr "A")) "progress" = Value.vint p ∨
            getv (rollupRow dfHalfDone (Value.vstr "A")) "progress" = Value.vpct p) ∧
          0 ≤ p ∧ p ≤ 10000)) ∧
    getv (rollupRow dfHalfDone (Value.vstr "A")) "progress" = Value.vpct 5000 :=
  ⟨by decide, progress_spec dfHalfDone 0 _ (by decide), by decide⟩

theorem durationValue_spec (sv ev : Value) :
    ∃ d : ℤ, durationValue sv ev = Value.vint d ∧
      (∀ s e : ℤ, sv = Value.vts s → ev = Value.vts e → s ≤ e → 0 ≤ d) ∧
      ((sv = Value.vnan ∨ ev = Value.vnan) → d = 0) := by
  cases sv with
  | vts s0 =>
    cases ev with
    | vts e0 =>
      refine ⟨(e0 - s0) / 86400, rfl, ?_, ?_⟩
      · intro s e hs he hle
        have hs2 : s0 = s := by
          simpa using hs
        have he2 : e0 = e := by
          simpa using he
        subst hs2
        subst he2
        exact Int.ediv_nonneg (by omega) (by norm_num)
      · intro h
        rcases h with h | h <;> exact absurd h (by simp)
    | vint n => exact ⟨0, rfl, by intro s e hs he hle; exact le_refl 0, fun _ => rfl⟩
    | vstr s => exact ⟨0, rfl, by intro s e hs he hle; exact le_refl 0, fun _ => rfl⟩
    | vpct p => exact ⟨0, rfl, by intro s e hs he hle; exact le_refl 0, fun _ => rfl⟩
    | vinf => exact ⟨0, rfl, by intro s e hs he hle; exact le_refl 0, fun _ => rfl⟩
    | vnan => exact ⟨0, rfl, by intro s e hs he hle; exact le_refl 0, fun _ => rfl⟩
  | vint n =>
    exact ⟨0, rfl, by intro s e hs he hle; exact absurd hs (by simp), fun _ => rfl⟩
  | vstr s =>
    exact ⟨0, rfl, by intro s1 e hs he hle; exact absurd hs (by simp), fun _ => rfl⟩
  | vpct p =>
    exact ⟨0, rfl, by intro s e hs he hle; exact absurd hs (by simp), fun _ => rfl⟩
  | vinf =>
    exact ⟨0, rfl, by intro s e hs he hle; exact absurd hs (by simp), fun _ => rfl⟩
  | vnan =>
    exact ⟨0, rfl, by intro s e hs he hle; exact absurd hs (by simp), fun _ => rfl⟩

/-- The one-row frame whose task finishes nine days before it starts. -/
def dfBackwards : DataFrame :=
  ⟨requiredColumns,
   [[("project_id", Value.vstr "A"), ("project_name", Value.vstr "P"),
     ("task_id", Value.vstr "t"), ("task_status", Value.vstr "進行中"),
     ("task_start_date", Value.vts 864000), ("task_finish_date", Value.vts 86400)]]⟩

/-- C6 counterexample: with `start_date` = day 10 and `end_date` = day 1
(the group maximum finish precedes the minimum start), the rollup
duration is -9, violating the claimed `duration ≥ 0`. -/
theorem duration_nonneg_counterexample :
    (calculate_progress dfBackwards 0).rows.map (fun r => getv r "duration")
      = [Value.vint (-9)] ∧
    (-9 : ℤ) < 0 := by
  exact ⟨by decide, by norm_num⟩

/-- C6 amended: every rollup row has an integer `duration` equal to the
floor of the day span from `start_date` to `end_date`; it is 0 whenever
either bound is null, and non-negative whenever `start_date ≤ end_date`
— but it is negative when the group's maximum finish date precedes its
minimum start date. -/
theorem duration_spec (df : DataFrame) (now : ℤ) (r : Row)
    (hr : r ∈ (calculate_progress df now).rows) :
    ∃ d : ℤ, getv r "duration" = Value.vint d ∧
      getv r "duration"
        = durationValue (getv r "start_date") (getv r "end_date") ∧
      (∀ s e : ℤ, getv r "start_date" = Value.vts s →
        getv r "end_date" = Value.vts e → s ≤ e → 0 ≤ d) ∧
      ((getv r "start_date" = Value.vnan ∨ getv r "end_date" = Value.vnan) →
        d = 0) := by
  rcases mem_calculate_progress_rows df now r hr with h | h | ⟨k, hk, h⟩
  · subst h
    refine ⟨0, rfl, ?_, ?_, fun _ => rfl⟩
    · show Value.vint 0 = durationValue (Value.vts now) (Value.vts now)
      unfold durationValue
      simp
    · intro s e hs he hle
      exact le_refl 0
  · subst h
    refine ⟨0, rfl, ?_, ?_, fun _ => rfl⟩
    · show Value.vint 0 = durationValue (Value.vts now) (Value.vts now)
      unfold durationValue
      simp
    · intro s e hs he hle
      exact le_refl 0
  · subst h
    obtain ⟨d, hd, hpos, hnull⟩ := durationValue_spec
      (minDateAgg (groupRows df k) "task_start_date")
      (maxDateAgg (groupRows df k) "task_finish_date")
    refine ⟨d, ?_, ?_, ?_, ?_⟩
    · rw [getv_rollupRow_duration df k, hd]
    · rw [getv_rollupRow_duration df k, getv_rollupRow_start df k,
        getv_rollupRow_end df k]
    · intro s e hs he hle
      rw [getv_rollupRow_start df k] at hs
      rw [getv_rollupRow_end df k] at he
      exact hpos s e hs he hle
    · intro h
      apply hnull
      rcases h with h | h
      · rw [getv_rollupRow_start df k] at h
        exact Or.inl h
      · rw [getv_rollupRow_end df k] at h
        exact Or.inr h

/-- Witness: on the half-done frame the rollup duration is the one-day
span from day 0 to day 1, and the amended duration property holds at
that concrete row. -/
theorem duration_spec_witness :
    rollupRow dfHalfDone (Value.vstr "A") ∈ (calculate_progress dfHalfDone 0).rows ∧
    (∃ d : ℤ, getv (rollupRow dfHalfDone (Value.vstr "A")) "duration" = Value.vint d ∧
      getv (rollupRow dfHalfDone (Value.vstr "A")) "duration"
        = durationValue (getv (rollupRow dfHalfDone (Value.vstr "A")) "start_date")
            (getv (rollupRow dfHalfDone (Value.vstr "A")) "end_date") ∧
      (∀ s e : ℤ, getv (rollupRow dfHalfDone (Value.vstr "A")) "start_date" = Value.vts s →
        getv (rollupRow dfHalfDone (Value.vstr "A")) "end_date" = Value.vts e →
        s ≤ e → 0 ≤ d) ∧
      ((getv (rollupRow dfHalfDone (Value.vstr "A")) "start_date" = Value.vnan ∨
        getv (rollupRow dfHalfDone (Value.vstr "A")) "end_date" = Value.vnan) → d = 0)) ∧
    getv (rollupRow dfHalfDone (Value.vstr "A")) "duration" = Value.vint 1 :=
  ⟨by decide, duration_spec dfHalfDone 0 _ (by decide), by decide⟩

theorem lookup_normalizeRow (r : Row) :
    List.lookup "project_id" (normalizeRow r)
      = (List.lookup "project_id" r).map normalizeValue := by
  induction r with
  | nil => rfl
  | cons e r ih =>
    obtain ⟨a, b⟩ := e
    by_cases ha : "project_id" = a
    · subst ha
      simp [normalizeRow, List.lookup]
    · have ha2 : ("project_id" == a) = false := by
        simpa using ha
      simp only [normalizeRow, List.map_cons]
      rw [if_neg (by simpa using fun hx => ha hx.symm)]
      simp only [List.lookup, ha2]
      exact ih

theorem astypeStrMatch_normalizeRow (r : Row) (pid : String) :
    astypeStrMatch (normalizeRow r) pid = astypeStrMatch r pid := by
  unfold astypeStrMatch getv
  rw [lookup_normalizeRow]
  cases List.lookup "project_id" r with
  | none => rfl
  | some v => rfl

/-- C7 amended: the string normalization `str(x)` applied at the
comparison sites is idempotent, and the shared per-project selector
(`astype(str) == str(project_id)`, used by `get_recent_tasks`,
`next_milestone_format` and `get_project_milestones`) is invariant under
normalizing the `project_id` column, so those filters treat a numeric
and a string id alike; no normalization happens at the ingest boundary,
and `calculate_progress` groups by the RAW cell values (see the
counterexample), which is where the claim fails. -/
theorem normalization_spec (df : DataFrame) (pid : String) (v : Value) :
    normalizeValue (normalizeValue v) = normalizeValue v ∧
    projectFilter (normalizeFrame df) pid
      = Except.map (fun rs => rs.map normalizeRow) (projectFilter df pid) := by
  constructor
  · rfl
  · unfold projectFilter normalizeFrame
    by_cases hp : hasCol df "project_id" = false
    · simp only [hasCol] at hp ⊢
      rw [if_pos hp, if_pos hp]
      rfl
    · simp only [hasCol] at hp ⊢
      rw [if_neg hp, if_neg hp]
      simp only [Except.map]
      rw [List.filter_map]
      have hcomp : (fun r => astypeStrMatch r pid) ∘ normalizeRow
          = fun r => astypeStrMatch r pid := by
        funext r
        simp only [Function.comp_apply]
        exact astypeStrMatch_normalizeRow r pid
      rw [hcomp]

/-- A task row whose project id is the string "1". -/
def rowStrId : Row :=
  [("project_id", Value.vstr "1"), ("project_name", Value.vstr "P"),
   ("task_id", Value.vstr "a"), ("task_status", Value.vstr "完了"),
   ("task_start_date", Value.vts 0), ("task_finish_date", Value.vts 86400)]

/-- The same task row with the project id stored as the int 1. -/
def rowIntId : Row :=
  [("project_id", Value.vint 1), ("project_name", Value.vstr "P"),
   ("task_id", Value.vstr "a"), ("task_status", Value.vstr "完了"),
   ("task_start_date", Value.vts 0), ("task_finish_date", Value.vts 86400)]

/-- Two rows of the same project, both ids the string "1". -/
def dfStrIds : DataFrame :=
  ⟨requiredColumns, [rowStrId, rowStrId]⟩

/-- The same two rows with one id stored numerically. -/
def dfMixedIds : DataFrame :=
  ⟨requiredColumns, [rowIntId, rowStrId]⟩

/-- C7 counterexample: the two frames are identical after id
normalization, yet `calculate_progress` produces one rollup row for the
all-string frame and TWO for the mixed frame — `groupby` uses the raw
`project_id` values, so the int 1 and the string "1" form separate
groups: group-by results are NOT invariant under the id representation,
and no ingest-boundary normalization exists. -/
theorem normalization_counterexample :
    normalizeFrame dfMixedIds = normalizeFrame dfStrIds ∧
    (calculate_progress dfStrIds 0).rows.length = 1 ∧
    (calculate_progress dfMixedIds 0).rows.length = 2 := by
  refine ⟨?_, ?_, ?_⟩ <;> decide

/-- Witness instantiating the totality characterization: on the
three-row delay frame every guarded query succeeds, and on the empty
frame the unguarded queries report the raised KeyError. -/
theorem entry_point_totality_witness :
    (check_delays dfDelayW 0).isOk = true ∧
    (get_delayed_projects_count dfDelayW 0).isOk = true ∧
    (check_delays (⟨[], []⟩ : DataFrame) 0).isOk = false ∧
    (requiredResultCols.all
      (fun c => hasCol (calculate_progress dfDelayW 0) c) = true) := by
  have h1 := entry_point_totality dfDelayW 0 0 false "A" env0 fs0 none
  have h2 := entry_point_totality (⟨[], []⟩ : DataFrame) 0 0 false "A" env0 fs0 none
  exact ⟨h1.1.trans (by decide), h1.2.1.trans (by decide),
    h2.1.trans (by decide), h1.2.2.2.1⟩

/-- Witness instantiating the normalization properties at the int id 1
and the mixed-representation frame. -/
theorem normalization_spec_witness :
    normalizeValue (normalizeValue (Value.vint 1)) = normalizeValue (Value.vint 1) ∧
    projectFilter (normalizeFrame dfMixedIds) "1"
      = Except.map (fun rs => rs.map normalizeRow) (projectFilter dfMixedIds "1") :=
  ⟨(normalization_spec dfMixedIds "1" (Value.vint 1)).1,
   (normalization_spec dfMixedIds "1" (Value.vint 1)).2⟩

end CTG
